import Mathlib

/-
  A shallow embedding of the MBTI Form M scoring engine (src/scorer.js together
  with the item parameter table src/itemParameterMatrix.js).

  Modelling conventions:
  * JavaScript IEEE-754 doubles are idealised as exact rationals (ℚ).  The
    theta grid of the source, `for (let theta = -3.0; theta <= 3.0; theta += 0.05)`,
    runs for 121 iterations in doubles (with drift of order 1e-15); it is
    idealised as the exact 121-point grid -3 + k/20, k = 0..120.
  * `Math.exp` and `Math.log` are transcendental; the embedding is parametric
    in two rational functions `E` (for exp) and `L` (for log).  Theorems assume
    of them exactly what the proofs need (positivity and strict monotonicity);
    concrete piecewise-rational stand-ins `linExp` and `linLog` satisfying
    those assumptions are provided so that everything can be evaluated.
  * `Math.round` and `Number.prototype.toFixed` round half-up (towards +∞),
    which coincides with Mathlib's `round` on ℚ.
  * The question bank (questions.json) is not part of the repository sources;
    it is a parameter `bank : ℕ → Question` supplying, per 0-based question
    index, the pole letter of each of the two options.  An answer set is a
    function from 1-based question numbers to an optional choice, mirroring
    the `answers[qIndex + 1]` lookup and the falsy test of the source.
-/

namespace FormM

/-- One entry of `itemParameters` in src/itemParameterMatrix.js:
    dichotomy label, primary facet, discrimination `a`, location `b`. -/
structure ItemParams where
  dichotomy : String
  primaryFacet : String
  a : ℚ
  b : ℚ
deriving DecidableEq

instance : Inhabited ItemParams := ⟨⟨"", "", 0, 0⟩⟩

/-- Items 0..23 of the table of src/itemParameterMatrix.js. -/
def itemChunk0 : List ItemParams := [
  ⟨"J-P", "Planful", 2.5, 0.93⟩,
  ⟨"S-N", "Conceptual", 2.5, 1.10⟩,
  ⟨"E-I", "Enthusiastic", 2.1, -0.01⟩,
  ⟨"J-P", "Planful", 2.1, -0.24⟩,
  ⟨"S-N", "Imaginative", 1.88, -0.75⟩,
  ⟨"T-F", "Logical", 2.5, 0.62⟩,
  ⟨"E-I", "Gregarious", 2.5, -0.09⟩,
  ⟨"J-P", "Spontaneous", 2.5, -0.22⟩,
  ⟨"S-N", "Conceptual", 1.5, -0.84⟩,
  ⟨"E-I", "Initiating", 2.0, -0.65⟩,
  ⟨"S-N", "Imaginative", 2.5, -0.31⟩,
  ⟨"J-P", "Scheduled", 1.88, 0.72⟩,
  ⟨"E-I", "Contained", 3.0, 0.76⟩,
  ⟨"J-P", "Systematic", 2.5, 0.67⟩,
  ⟨"T-F", "Compassionate", 2.8, -0.80⟩,
  ⟨"E-I", "Intimate", 2.5, 0.42⟩,
  ⟨"J-P", "Pressure Prompted", 2.5, 0.13⟩,
  ⟨"S-N", "Imaginative", 2.5, 0.88⟩,
  ⟨"E-I", "Expressive", 3.0, 0.98⟩,
  ⟨"J-P", "Methodical", 2.5, 0.44⟩,
  ⟨"T-F", "Logical", 1.88, 0.51⟩,
  ⟨"S-N", "Abstract", 2.0, -0.40⟩,
  ⟨"E-I", "Initiating", 2.5, 0.52⟩,
  ⟨"J-P", "Spontaneous", 2.5, 1.18⟩]

/-- Items 24..47 of the table of src/itemParameterMatrix.js. -/
def itemChunk1 : List ItemParams := [
  ⟨"S-N", "Traditional", 1.6, -1.58⟩,
  ⟨"E-I", "Contained", 2.5, -0.61⟩,
  ⟨"S-N", "Abstract", 1.88, 1.35⟩,
  ⟨"J-P", "Scheduled", 1.88, 0.21⟩,
  ⟨"T-F", "Tender", 2.5, -0.40⟩,
  ⟨"S-N", "Conceptual", 2.5, 1.11⟩,
  ⟨"T-F", "Logical", 1.88, 1.05⟩,
  ⟨"E-I", "Enthusiastic", 2.5, -0.37⟩,
  ⟨"T-F", "Tender", 2.0, -0.90⟩,
  ⟨"S-N", "Conceptual", 2.8, -0.37⟩,
  ⟨"T-F", "Logical", 1.88, -0.68⟩,
  ⟨"J-P", "Systematic", 2.5, 0.51⟩,
  ⟨"T-F", "Compassionate", 2.8, -0.84⟩,
  ⟨"E-I", "Quiet", 1.5, -0.71⟩,
  ⟨"S-N", "Theoretical", 2.5, -0.33⟩,
  ⟨"T-F", "Compassionate", 2.0, 1.32⟩,
  ⟨"J-P", "Systematic", 1.5, -0.90⟩,
  ⟨"E-I", "Gregarious", 1.88, 0.31⟩,
  ⟨"T-F", "Empathetic", 2.5, -0.73⟩,
  ⟨"S-N", "Theoretical", 2.8, 1.10⟩,
  ⟨"J-P", "Methodical", 2.0, 0.08⟩,
  ⟨"S-N", "Conceptual", 2.5, 0.23⟩,
  ⟨"T-F", "Tender", 2.5, -0.87⟩,
  ⟨"S-N", "Imaginative", 2.5, 1.43⟩]

/-- Items 48..71 of the table of src/itemParameterMatrix.js. -/
def itemChunk2 : List ItemParams := [
  ⟨"T-F", "Tough", 2.5, 1.02⟩,
  ⟨"S-N", "Original", 1.5, -0.17⟩,
  ⟨"T-F", "Tender", 1.88, 1.02⟩,
  ⟨"S-N", "Imaginative", 2.5, -0.67⟩,
  ⟨"T-F", "Logical", 1.88, -0.60⟩,
  ⟨"S-N", "Conceptual", 2.5, -0.57⟩,
  ⟨"J-P", "Systematic", 2.5, -0.37⟩,
  ⟨"T-F", "Compassionate", 2.5, -0.46⟩,
  ⟨"E-I", "Gregarious", 1.88, -1.18⟩,
  ⟨"T-F", "Logical", 2.0, -0.11⟩,
  ⟨"J-P", "Open-ended", 2.8, -0.77⟩,
  ⟨"S-N", "Abstract", 1.6, 0.60⟩,
  ⟨"T-F", "Tough", 2.5, 1.14⟩,
  ⟨"E-I", "Expressive", 1.41, 0.05⟩,
  ⟨"S-N", "Original", 2.5, -0.05⟩,
  ⟨"J-P", "Systematic", 2.8, 0.62⟩,
  ⟨"S-N", "Imaginative", 2.8, 0.78⟩,
  ⟨"T-F", "Accepting", 2.5, -0.05⟩,
  ⟨"S-N", "Theoretical", 2.5, -0.70⟩,
  ⟨"E-I", "Intimate", 2.5, 1.15⟩,
  ⟨"S-N", "Imaginative", 2.1, -0.42⟩,
  ⟨"T-F", "Compassionate", 2.8, -0.38⟩,
  ⟨"S-N", "Original", 2.5, -1.50⟩,
  ⟨"T-F", "Tender", 2.8, -1.67⟩]

/-- Items 72..92 of the table of src/itemParameterMatrix.js. -/
def itemChunk3 : List ItemParams := [
  ⟨"S-N", "Original", 2.8, 0.09⟩,
  ⟨"E-I", "Active", 1.88, 0.55⟩,
  ⟨"T-F", "Logical", 2.5, -0.31⟩,
  ⟨"J-P", "Planful", 3.0, -1.20⟩,
  ⟨"J-P", "Casual", 2.0, -0.98⟩,
  ⟨"J-P", "Spontaneous", 1.6, 0.63⟩,
  ⟨"E-I", "Gregarious", 2.5, 0.79⟩,
  ⟨"J-P", "Planful", 1.5, 0.21⟩,
  ⟨"E-I", "Expressive", 2.0, 0.24⟩,
  ⟨"S-N", "Conceptual", 1.88, -0.66⟩,
  ⟨"E-I", "Initiating", 2.8, -0.30⟩,
  ⟨"J-P", "Spontaneous", 2.5, -1.05⟩,
  ⟨"E-I", "Intimate", 1.88, -0.99⟩,
  ⟨"J-P", "Methodical", 2.0, -1.01⟩,
  ⟨"T-F", "Critical", 2.5, 1.05⟩,
  ⟨"J-P", "Scheduled", 2.5, 0.43⟩,
  ⟨"T-F", "Reasonable", 2.8, 0.32⟩,
  ⟨"J-P", "Methodical", 2.5, 0.0⟩,
  ⟨"T-F", "Accommodating", 2.0, 0.75⟩,
  ⟨"S-N", "Original", 2.5, 0.61⟩,
  ⟨"J-P", "Spontaneous", 2.5, 0.0⟩]

/-- The 93-item calibrated parameter table of src/itemParameterMatrix.js,
    in key order "0".."92". -/
def itemParametersList : List ItemParams :=
  itemChunk0 ++ itemChunk1 ++ itemChunk2 ++ itemChunk3

/-- Item lookup by 0-based question index (`itemParameters[qIndex]`). -/
def itemAt (q : ℕ) : ItemParams := itemParametersList.getD q default

/-- Configuration of one dichotomy from `DICHOTOMY_CONFIG` in src/scorer.js. -/
structure DichotomyConfig where
  pole1 : String
  pole2 : String
  tieBreaker : String
  facets : List String
deriving DecidableEq

/-- `POSITIVE_POLE_FACETS` of src/scorer.js. -/
def POSITIVE_POLE_FACETS : String → List String := fun d =>
  if d = "E-I" then ["Initiating", "Expressive", "Gregarious", "Active", "Enthusiastic"]
  else if d = "S-N" then ["Concrete", "Realistic", "Practical", "Experiential", "Traditional"]
  else if d = "T-F" then ["Logical", "Reasonable", "Questioning", "Critical", "Tough"]
  else if d = "J-P" then ["Systematic", "Planful", "Early Starting", "Scheduled", "Methodical"]
  else []

/-- `NEGATIVE_POLE_FACETS` of src/scorer.js. -/
def NEGATIVE_POLE_FACETS : String → List String := fun d =>
  if d = "E-I" then ["Receiving", "Contained", "Intimate", "Reflective", "Quiet"]
  else if d = "S-N" then ["Abstract", "Imaginative", "Conceptual", "Theoretical", "Original"]
  else if d = "T-F" then ["Empathetic", "Compassionate", "Accommodating", "Accepting", "Tender"]
  else if d = "J-P" then ["Casual", "Open-ended", "Pressure Prompted", "Spontaneous", "Emergent"]
  else []

/-- The E-I entry of `DICHOTOMY_CONFIG`. -/
def eiCfg : DichotomyConfig :=
  ⟨"E", "I", "I", POSITIVE_POLE_FACETS "E-I" ++ NEGATIVE_POLE_FACETS "E-I"⟩

/-- The S-N entry of `DICHOTOMY_CONFIG`. -/
def snCfg : DichotomyConfig :=
  ⟨"S", "N", "N", POSITIVE_POLE_FACETS "S-N" ++ NEGATIVE_POLE_FACETS "S-N"⟩

/-- The T-F entry of `DICHOTOMY_CONFIG`. -/
def tfCfg : DichotomyConfig :=
  ⟨"T", "F", "F", POSITIVE_POLE_FACETS "T-F" ++ NEGATIVE_POLE_FACETS "T-F"⟩

/-- The J-P entry of `DICHOTOMY_CONFIG`. -/
def jpCfg : DichotomyConfig :=
  ⟨"J", "P", "P", POSITIVE_POLE_FACETS "J-P" ++ NEGATIVE_POLE_FACETS "J-P"⟩

/-- `DICHOTOMY_CONFIG` of src/scorer.js, in object-literal order. -/
def DICHOTOMY_CONFIG : List (String × DichotomyConfig) :=
  [("E-I", eiCfg), ("S-N", snCfg), ("T-F", tfCfg), ("J-P", jpCfg)]

/-- Key lookup `DICHOTOMY_CONFIG[name]`. -/
def lookupConfig (name : String) : Option DichotomyConfig :=
  (DICHOTOMY_CONFIG.find? (fun p => p.1 = name)).map Prod.snd

/-- Total version of the config lookup; the item table only ever holds the
    four valid dichotomy labels, so the default is never reached from it. -/
def configOfD (name : String) : DichotomyConfig :=
  (lookupConfig name).getD ⟨"", "", "", []⟩

/-- `ALL_FACETS` of src/scorer.js: facets of all dichotomies in config order. -/
def ALL_FACETS : List String :=
  (DICHOTOMY_CONFIG.map (fun p => p.2.facets)).flatten

/-- `facetToQuestionMap.get(facetName)`: 0-based question indices with the
    given primary facet, in ascending order (the iteration order of
    `Object.entries(itemParameters)` for array-index keys). -/
def facetToQuestionMap (facetName : String) : List ℕ :=
  (List.range 93).filter (fun i => (itemAt i).primaryFacet = facetName)

/-- A respondent's choice for one question: option A or option B. -/
inductive Choice where
  | A : Choice
  | B : Choice
deriving DecidableEq

/-- One of the two options of a bank question; only its pole letter matters
    to the scorer. -/
structure QOption where
  pole : String
deriving DecidableEq

/-- One question of the (external) question bank. -/
structure Question where
  optionA : QOption
  optionB : QOption
deriving DecidableEq

/-- `questionData.options[answer.choice]`. -/
def Question.optionOf (q : Question) : Choice → QOption
  | Choice.A => q.optionA
  | Choice.B => q.optionB

/-- An answer set: 1-based question number to optional choice. -/
def AnswerSet : Type := ℕ → Option Choice

/-- `Math.abs` on ℚ. -/
def jsAbs (x : ℚ) : ℚ := if x < 0 then -x else x

/-- `Math.min` on ℚ. -/
def jsMin (x y : ℚ) : ℚ := if x ≤ y then x else y

/-- `Math.max` on ℤ. -/
def jsMaxI (x y : ℤ) : ℤ := if x ≤ y then y else x

/-- `Math.round`: round half towards +∞ (the same convention as Mathlib's
    `round`). -/
def jsRound (x : ℚ) : ℤ := ⌊x + 1/2⌋

/-- The 2PL response probability, `probability` of src/scorer.js:
    P(θ) = 1 / (1 + exp(-a (θ - b))), with `E` standing for `Math.exp`. -/
def probability (E : ℚ → ℚ) (theta a b : ℚ) : ℚ :=
  1 / (1 + E (-(a * (theta - b))))

/-- The epsilon 1e-9 guarding `Math.log(0)` in src/scorer.js. -/
def logEps : ℚ := 1 / 1000000000

/-- The contribution of one question to a facet's log-likelihood at `theta`
    (0 for an unanswered question).  `L` stands for `Math.log`; the source's
    `probPositivePole || 1e-9` replaces an exactly-zero probability by 1e-9. -/
def answerContrib (E L : ℚ → ℚ) (bank : ℕ → Question) (answers : AnswerSet)
    (theta : ℚ) (q : ℕ) : ℚ :=
  match answers (q + 1) with
  | none => 0
  | some c =>
    if ((bank q).optionOf c).pole = (configOfD (itemAt q).dichotomy).pole1 then
      L (if probability E theta (itemAt q).a (itemAt q).b = 0 then logEps
         else probability E theta (itemAt q).a (itemAt q).b)
    else
      L (if 1 - probability E theta (itemAt q).a (itemAt q).b = 0 then logEps
         else 1 - probability E theta (itemAt q).a (itemAt q).b)

/-- The inner accumulation of `findBestThetaForFacet`: total log-likelihood of
    the answered questions of `qs` at `theta`. -/
def facetLogLik (E L : ℚ → ℚ) (bank : ℕ → Question) (answers : AnswerSet)
    (qs : List ℕ) (theta : ℚ) : ℚ :=
  qs.foldl (fun acc q => acc + answerContrib E L bank answers theta q) 0

/-- The theta grid scanned by src/scorer.js, idealised to exact rationals:
    -3.0, -2.95, ..., 3.0 (121 points). -/
def thetaGrid : List ℚ :=
  (List.range 121).map (fun (k : ℕ) => -3 + (k : ℚ) / 20)

/-- One step of the scan: keep the candidate iff its score strictly exceeds
    the running maximum (`-Infinity` is modelled by `none`). -/
def scanStep (score : ℚ → ℚ) (st : ℚ × Option ℚ) (theta : ℚ) : ℚ × Option ℚ :=
  match st.2 with
  | none => (theta, some (score theta))
  | some m => if m < score theta then (theta, some (score theta)) else st

/-- The grid scan of src/scorer.js: fold over the grid starting from
    `bestTheta = 0`, `maxLogLikelihood = -Infinity`, and return the best theta. -/
def bestThetaOf (score : ℚ → ℚ) (grid : List ℚ) : ℚ :=
  (grid.foldl (scanStep score) (0, none)).1

/-- `findBestThetaForFacet` of src/scorer.js. -/
def findBestThetaForFacet (E L : ℚ → ℚ) (bank : ℕ → Question) (answers : AnswerSet)
    (facetName : String) : ℚ :=
  if facetToQuestionMap facetName = [] then 0
  else bestThetaOf (facetLogLik E L bank answers (facetToQuestionMap facetName)) thetaGrid

/-- Rounding to two decimals: `parseFloat(x.toFixed(2))`.  `toFixed` rounds
    half towards +∞, as does `jsRound`. -/
def round2 (x : ℚ) : ℚ := (jsRound (100 * x) : ℤ) / 100

/-- The `facetScores` object built by `calculateResults`: defined exactly for
    the facets of `ALL_FACETS` present in `facetToQuestionMap`. -/
def facetScores (E L : ℚ → ℚ) (bank : ℕ → Question) (answers : AnswerSet)
    (facet : String) : Option ℚ :=
  if facet ∈ ALL_FACETS ∧ facetToQuestionMap facet ≠ [] then
    some (round2 (findBestThetaForFacet E L bank answers facet))
  else none

/-- `getPccCategory` of src/scorer.js. -/
def getPccCategory (pci : ℤ) : String :=
  if pci ≥ 26 then "Very Clear"
  else if pci ≥ 16 then "Clear"
  else if pci ≥ 6 then "Moderate"
  else "Slight"

/-- The facet thetas found for the facets of one dichotomy, in facet order,
    skipping facets with no score (the `if (theta === undefined) continue`). -/
def presentThetas (facetThetas : String → Option ℚ) (cfg : DichotomyConfig) : List ℚ :=
  cfg.facets.filterMap facetThetas

/-- Left-fold sum, mirroring the accumulation `compositeThetaSum += theta`. -/
def sumList (l : List ℚ) : ℚ := l.foldl (· + ·) 0

/-- The composite theta of one dichotomy: sum of present facet thetas divided
    by their count. -/
def compositeTheta (facetThetas : String → Option ℚ) (cfg : DichotomyConfig) : ℚ :=
  sumList (presentThetas facetThetas cfg) / (presentThetas facetThetas cfg).length

/-- The preference branch of `computeCompositeDichotomyScores`:
    pole1 above 0.01, pole2 below -0.01, tie-breaker inside the band. -/
def preferenceFromTheta (cfg : DichotomyConfig) (theta : ℚ) : String :=
  if 1/100 < theta then cfg.pole1
  else if theta < -(1/100) then cfg.pole2
  else cfg.tieBreaker

/-- The PCI computation of `computeCompositeDichotomyScores`:
    `Math.max(1, Math.round((Math.min(|θ|, 3) / 3) * 30))`. -/
def pciFromTheta (theta : ℚ) : ℤ :=
  jsMaxI 1 (jsRound (jsMin (jsAbs theta) 3 / 3 * 30))

/-- One dichotomy's result record. -/
structure DichotomyResult where
  preference : String
  pci : ℤ
  pcc : String
  theta : ℚ
  dichotomyName : String
deriving DecidableEq

/-- `computeCompositeDichotomyScores` of src/scorer.js, for one dichotomy
    name (`none` both for an unknown name and for a dichotomy skipped by
    `if (facetCount === 0) continue`). -/
def computeCompositeDichotomyScores (facetThetas : String → Option ℚ)
    (name : String) : Option DichotomyResult :=
  match lookupConfig name with
  | none => none
  | some cfg =>
    if (presentThetas facetThetas cfg).length = 0 then none
    else
      some { preference := preferenceFromTheta cfg (compositeTheta facetThetas cfg)
             pci := pciFromTheta (compositeTheta facetThetas cfg)
             pcc := getPccCategory (pciFromTheta (compositeTheta facetThetas cfg))
             theta := round2 (compositeTheta facetThetas cfg)
             dichotomyName := name }

/-- The result of `calculateResults` of src/scorer.js. -/
structure CalcResults where
  dichotomyResults : String → Option DichotomyResult
  facetThetas : String → Option ℚ

/-- `calculateResults` of src/scorer.js, the orchestrator entry point. -/
def calculateResults (E L : ℚ → ℚ) (bank : ℕ → Question) (answers : AnswerSet) :
    CalcResults :=
  { dichotomyResults := computeCompositeDichotomyScores (facetScores E L bank answers)
    facetThetas := facetScores E L bank answers }

/-- A piecewise-rational stand-in for `Math.exp`: positive, strictly monotone
    and satisfying linExp (-x) * linExp x = 1. -/
def linExp (x : ℚ) : ℚ := if 0 ≤ x then 1 + x else 1 / (1 - x)

/-- A piecewise-rational stand-in for `Math.log`: strictly monotone on the
    positive rationals. -/
def linLog (x : ℚ) : ℚ := if 1 ≤ x then x - 1 else 1 - 1 / x

/-- The canonical question bank used for concrete evaluations: option A of
    each question carries the positive pole of the question's dichotomy,
    option B the negative pole. -/
def bankC : ℕ → Question := fun q =>
  ⟨⟨(configOfD (itemAt q).dichotomy).pole1⟩, ⟨(configOfD (itemAt q).dichotomy).pole2⟩⟩

/-- The entirely empty answer set: all 93 questions omitted. -/
def ansNone : AnswerSet := fun _ => none

/-- Only question 10 (0-based index 9, an E-I item of facet "Initiating")
    answered, with the positive-pole option. -/
def ansOnePos : AnswerSet := fun n => if n = 10 then some Choice.A else none

/-- Only question 10 answered, with the negative-pole option. -/
def ansOneNeg : AnswerSet := fun n => if n = 10 then some Choice.B else none

/-- Exactly two J-P questions answered: question 90 (0-based index 89, facet
    "Methodical", b = 0) with the positive-pole option and question 93
    (0-based index 92, facet "Spontaneous", b = 0) with the negative-pole
    option. -/
def ansTwoJP : AnswerSet := fun n =>
  if n = 90 then some Choice.A else if n = 93 then some Choice.B else none

/-- Only question 1 (0-based index 0, a J-P item) answered, with option A. -/
def ansOneJP1 : AnswerSet := fun n => if n = 1 then some Choice.A else none

/-- The number of facets of a dichotomy that obtain a facet score: those in
    `ALL_FACETS` with at least one mapped question.  This is independent of
    the answers and of the `E`/`L` parameters. -/
def presentCount (cfg : DichotomyConfig) : ℕ :=
  (cfg.facets.filter
    (fun f => decide (f ∈ ALL_FACETS ∧ facetToQuestionMap f ≠ []))).length

/-- Modelled from the spec: section 4.3's gathering of one dichotomy's
    answered member items into (a, b, u) triples, u = 1 for a positive-pole
    choice and 0 otherwise.  The corresponding per-dichotomy gathering is
    absent from src/, which estimates per facet instead. -/
def gatherDichotomyTriples (bank : ℕ → Question) (answers : AnswerSet)
    (name : String) : List (ℚ × ℚ × ℚ) :=
  (List.range 93).filterMap (fun q =>
    let p := itemAt q
    if p.dichotomy = name then
      match answers (q + 1) with
      | some c =>
        some (p.a, p.b,
          if ((bank q).optionOf c).pole = (configOfD name).pole1 then 1 else 0)
      | none => none
    else none)

/-- Clamp to [-3, 3]. -/
def clamp3 (x : ℚ) : ℚ := if x < -3 then -3 else if 3 < x then 3 else x

/-- Modelled from the spec: one gradient/curvature accumulation of the
    Newton-Raphson estimator of section 4.1 (absent from src/). -/
def nrGradCurv (E : ℚ → ℚ) (items : List (ℚ × ℚ × ℚ)) (theta : ℚ) : ℚ × ℚ :=
  items.foldl
    (fun gc t =>
      let p := probability E theta t.1 t.2.1
      (gc.1 + t.1 * (t.2.2 - p), gc.2 - t.1 * t.1 * (p * (1 - p))))
    (0, 0)

/-- Modelled from the spec: the Newton-Raphson iteration of section 4.1 with
    the spec's example constants (cap 20, curvature threshold 1e-7, step
    tolerance 1e-4), absent from src/. -/
def nrGo (E : ℚ → ℚ) (items : List (ℚ × ℚ × ℚ)) : ℕ → ℚ → ℚ
  | 0, theta => theta
  | fuel + 1, theta =>
    let gc := nrGradCurv E items theta
    if jsAbs gc.2 < 1 / 10000000 then theta
    else
      let thetaNew := clamp3 (theta - gc.1 / gc.2)
      if jsAbs (thetaNew - theta) < 1 / 10000 then thetaNew
      else nrGo E items fuel thetaNew

/-- Modelled from the spec: the theta estimator of section 4.1 (Newton-Raphson
    MLE initialised at 0), which section 9 prescribes but src/ does not
    implement. -/
def specNewtonTheta (E : ℚ → ℚ) (items : List (ℚ × ℚ × ℚ)) : ℚ :=
  nrGo E items 20 0

/-- Auxiliary optionless form of the scan: fold keeping the strictly better
    candidate, starting from a first candidate `b`. -/
def scanFrom (score : ℚ → ℚ) (b : ℚ) (l : List ℚ) : ℚ :=
  l.foldl (fun best theta => if score best < score theta then theta else best) b

lemma jsRound_eq_round (x : ℚ) : jsRound x = round x := by
  rw [jsRound, round_eq]

lemma jsAbs_eq_abs (x : ℚ) : jsAbs x = |x| := by
  rw [jsAbs]
  rcases lt_or_le x 0 with h | h
  · rw [if_pos h, abs_of_neg h]
  · rw [if_neg (not_lt.mpr h), abs_of_nonneg h]

lemma jsMin_eq_min (x y : ℚ) : jsMin x y = min x y := (min_def x y).symm

lemma jsMaxI_eq_max (x y : ℤ) : jsMaxI x y = max x y := (max_def x y).symm

lemma round2_mono {x y : ℚ} (h : x ≤ y) : round2 x ≤ round2 y := by
  rw [round2, round2]
  have h2 : (100 : ℚ) * x + 1/2 ≤ 100 * y + 1/2 := by linarith
  have h3 : jsRound (100 * x) ≤ jsRound (100 * y) := Int.floor_mono h2
  exact div_le_div_of_nonneg_right (by exact_mod_cast h3) (by norm_num)

lemma round2_le_of_le {x c : ℚ} (hc : round2 c = c) (h : x ≤ c) : round2 x ≤ c := by
  rw [← hc]; exact round2_mono h

lemma round2_ge_of_ge {x c : ℚ} (hc : round2 c = c) (h : c ≤ x) : c ≤ round2 x := by
  rw [← hc]; exact round2_mono h

lemma round2_intMul (n : ℤ) : round2 ((n : ℚ) / 100) = (n : ℚ) / 100 := by
  rw [round2, jsRound_eq_round]
  have : (100 : ℚ) * ((n : ℚ) / 100) = (n : ℚ) := by ring
  rw [this, round_intCast]

lemma round2_neg_three : round2 (-3 : ℚ) = -3 := by
  have h := round2_intMul (-300)
  have h2 : ((-300 : ℤ) : ℚ) / 100 = -3 := by norm_num
  rw [h2] at h
  exact h

lemma round2_three : round2 (3 : ℚ) = 3 := by
  have h := round2_intMul 300
  have h2 : ((300 : ℤ) : ℚ) / 100 = 3 := by norm_num
  rw [h2] at h
  exact h

lemma scanFrom_cons (score : ℚ → ℚ) (b theta : ℚ) (t : List ℚ) :
    scanFrom score b (theta :: t) =
      scanFrom score (if score b < score theta then theta else b) t := rfl

lemma scanFrom_mem (score : ℚ → ℚ) (b : ℚ) (l : List ℚ) :
    scanFrom score b l ∈ b :: l := by
  induction l generalizing b with
  | nil => simp [scanFrom]
  | cons theta t ih =>
    rw [scanFrom_cons]
    rcases lt_or_le (score b) (score theta) with h | h
    · rw [if_pos h]
      rcases List.mem_cons.mp (ih theta) with h1 | h1
      · rw [h1]; exact List.mem_cons_of_mem _ (List.mem_cons_self _ _)
      · exact List.mem_cons_of_mem _ (List.mem_cons_of_mem _ h1)
    · rw [if_neg (not_lt.mpr h)]
      rcases List.mem_cons.mp (ih b) with h1 | h1
      · rw [h1]; exact List.mem_cons_self _ _
      · exact List.mem_cons_of_mem _ (List.mem_cons_of_mem _ h1)

lemma le_scanFrom (score : ℚ → ℚ) (b : ℚ) (l : List ℚ) :
    ∀ x ∈ b :: l, score x ≤ score (scanFrom score b l) := by
  induction l generalizing b with
  | nil =>
    intro x hx
    rcases List.mem_singleton.mp hx with rfl
    simp [scanFrom]
  | cons theta t ih =>
    intro x hx
    rw [scanFrom_cons]
    rcases lt_or_le (score b) (score theta) with h | h
    · rw [if_pos h]
      rcases List.mem_cons.mp hx with rfl | hx2
      · exact le_of_lt (lt_of_lt_of_le h (ih theta theta (List.mem_cons_self _ _)))
      · rcases List.mem_cons.mp hx2 with rfl | hx3
        · exact ih x x (List.mem_cons_self _ _)
        · exact ih theta x (List.mem_cons_of_mem _ hx3)
    · rw [if_neg (not_lt.mpr h)]
      rcases List.mem_cons.mp hx with rfl | hx2
      · exact ih x x (List.mem_cons_self _ _)
      · rcases List.mem_cons.mp hx2 with rfl | hx3
        · exact le_trans h (ih b b (List.mem_cons_self _ _))
        · exact ih b x (List.mem_cons_of_mem _ hx3)

lemma scanFrom_stays_or_improves (score : ℚ → ℚ) (b : ℚ) (l : List ℚ) :
    scanFrom score b l = b ∨ score b < score (scanFrom score b l) := by
  induction l generalizing b with
  | nil => left; rfl
  | cons theta t ih =>
    rw [scanFrom_cons]
    rcases lt_or_le (score b) (score theta) with h | h
    · rw [if_pos h]
      right
      exact lt_of_lt_of_le h (le_scanFrom score theta t theta (List.mem_cons_self _ _))
    · rw [if_neg (not_lt.mpr h)]
      exact ih b

lemma scanFrom_least (score : ℚ → ℚ) (b : ℚ) (l : List ℚ)
    (hb : ∀ x ∈ l, b < x) (hp : l.Pairwise (· < ·)) :
    ∀ x ∈ b :: l, score x = score (scanFrom score b l) → scanFrom score b l ≤ x := by
  induction l generalizing b with
  | nil =>
    intro x hx _
    rcases List.mem_singleton.mp hx with rfl
    exact le_of_eq rfl
  | cons theta t ih =>
    have hbt : b < theta := hb theta (List.mem_cons_self _ _)
    have hp' : t.Pairwise (· < ·) := (List.pairwise_cons.mp hp).2
    have hth : ∀ x ∈ t, theta < x := (List.pairwise_cons.mp hp).1
    intro x hx hsx
    rw [scanFrom_cons] at hsx ⊢
    rcases lt_or_le (score b) (score theta) with h | h
    · rw [if_pos h] at hsx ⊢
      rcases List.mem_cons.mp hx with rfl | hx2
      · exfalso
        have h1 : score theta ≤ score (scanFrom score theta t) :=
          le_scanFrom score theta t theta (List.mem_cons_self _ _)
        rw [← hsx] at h1
        exact absurd (lt_of_lt_of_le h h1) (lt_irrefl _)
      · exact ih theta hth hp' x hx2 hsx
    · rw [if_neg (not_lt.mpr h)] at hsx ⊢
      have hbtail : ∀ y ∈ t, b < y := fun y hy => lt_trans hbt (hth y hy)
      rcases List.mem_cons.mp hx with rfl | hx2
      · exact ih x hbtail hp' x (List.mem_cons_self _ _) hsx
      · rcases List.mem_cons.mp hx2 with rfl | hx3
        · rcases scanFrom_stays_or_improves score b t with he | himp
          · rw [he]; exact le_of_lt hbt
          · exfalso
            have h1 : score (scanFrom score b t) ≤ score b := by rw [← hsx]; exact h
            exact absurd (lt_of_lt_of_le himp h1) (lt_irrefl _)
        · exact ih b hbtail hp' x (List.mem_cons_of_mem _ hx3) hsx

lemma bestThetaOf_eq_scanFrom (score : ℚ → ℚ) (h : ℚ) (t : List ℚ) :
    bestThetaOf score (h :: t) = scanFrom score h t := by
  have key : ∀ (l : List ℚ) (b : ℚ),
      l.foldl (scanStep score) (b, some (score b)) =
        (scanFrom score b l, some (score (scanFrom score b l))) := by
    intro l
    induction l with
    | nil => intro b; rfl
    | cons theta t ih =>
      intro b
      rw [List.foldl_cons, scanFrom_cons]
      have hstep : scanStep score (b, some (score b)) theta =
          ((if score b < score theta then theta else b),
            some (score (if score b < score theta then theta else b))) := by
        rw [scanStep]
        rcases lt_or_le (score b) (score theta) with h1 | h1
        · simp only [if_pos h1]
        · simp only [if_neg (not_lt.mpr h1)]
      rw [hstep, ih]
  rw [bestThetaOf, List.foldl_cons]
  have hfirst : scanStep score (0, none) h = (h, some (score h)) := rfl
  rw [hfirst, key]

lemma bestThetaOf_mem (score : ℚ → ℚ) (l : List ℚ) (hne : l ≠ []) :
    bestThetaOf score l ∈ l := by
  cases l with
  | nil => exact absurd rfl hne
  | cons h t => rw [bestThetaOf_eq_scanFrom]; exact scanFrom_mem score h t

lemma le_bestThetaOf (score : ℚ → ℚ) (l : List ℚ) :
    ∀ x ∈ l, score x ≤ score (bestThetaOf score l) := by
  cases l with
  | nil => intro x hx; exact absurd hx (List.not_mem_nil x)
  | cons h t =>
    intro x hx
    rw [bestThetaOf_eq_scanFrom]
    exact le_scanFrom score h t x hx

lemma bestThetaOf_least (score : ℚ → ℚ) (l : List ℚ) (hp : l.Pairwise (· < ·)) :
    ∀ x ∈ l, score x = score (bestThetaOf score l) → bestThetaOf score l ≤ x := by
  cases l with
  | nil => intro x hx; exact absurd hx (List.not_mem_nil x)
  | cons h t =>
    intro x hx hs
    rw [bestThetaOf_eq_scanFrom] at hs ⊢
    exact scanFrom_least score h t (List.pairwise_cons.mp hp).1
      (List.pairwise_cons.mp hp).2 x hx hs

/-- With a constant score, the scan returns the least grid point: only the
    first comparison against `-Infinity` succeeds. -/
lemma bestThetaOf_const (score : ℚ → ℚ) (l : List ℚ) (c m : ℚ)
    (hp : l.Pairwise (· < ·)) (hc : ∀ x ∈ l, score x = c)
    (hm : m ∈ l) (hmin : ∀ x ∈ l, m ≤ x) :
    bestThetaOf score l = m := by
  have hne : l ≠ [] := by intro h; rw [h] at hm; exact List.not_mem_nil m hm
  have hr : bestThetaOf score l ∈ l := bestThetaOf_mem score l hne
  have h1 : bestThetaOf score l ≤ m := by
    apply bestThetaOf_least score l hp m hm
    rw [hc m hm, hc _ hr]
  exact le_antisymm h1 (hmin _ hr)

/-- With a score strictly increasing on the grid, the scan returns the
    greatest grid point. -/
lemma bestThetaOf_strictMono (score : ℚ → ℚ) (l : List ℚ) (m : ℚ)
    (hmono : ∀ x ∈ l, ∀ y ∈ l, x < y → score x < score y)
    (hm : m ∈ l) (hmax : ∀ x ∈ l, x ≤ m) :
    bestThetaOf score l = m := by
  have hne : l ≠ [] := by intro h; rw [h] at hm; exact List.not_mem_nil m hm
  have hr : bestThetaOf score l ∈ l := bestThetaOf_mem score l hne
  by_contra hne2
  have hlt : bestThetaOf score l < m := lt_of_le_of_ne (hmax _ hr) hne2
  have h1 : score (bestThetaOf score l) < score m := hmono _ hr _ hm hlt
  have h2 : score m ≤ score (bestThetaOf score l) := le_bestThetaOf score l m hm
  exact absurd (lt_of_le_of_lt h2 h1) (lt_irrefl _)

/-- With a score strictly decreasing on the grid, the scan returns the least
    grid point. -/
lemma bestThetaOf_strictAnti (score : ℚ → ℚ) (l : List ℚ) (m : ℚ)
    (hanti : ∀ x ∈ l, ∀ y ∈ l, x < y → score y < score x)
    (hm : m ∈ l) (hmin : ∀ x ∈ l, m ≤ x) :
    bestThetaOf score l = m := by
  have hne : l ≠ [] := by intro h; rw [h] at hm; exact List.not_mem_nil m hm
  have hr : bestThetaOf score l ∈ l := bestThetaOf_mem score l hne
  by_contra hne2
  have hlt : m < bestThetaOf score l := lt_of_le_of_ne (hmin _ hr) (Ne.symm hne2)
  have h1 : score (bestThetaOf score l) < score m := hanti _ hm _ hr hlt
  have h2 : score m ≤ score (bestThetaOf score l) := le_bestThetaOf score l m hm
  exact absurd (lt_of_le_of_lt h2 h1) (lt_irrefl _)

/-- Adding a strictly increasing difference to the score can only move the
    scan result to the right. -/
lemma bestThetaOf_add_mono (f d : ℚ → ℚ) (l : List ℚ) (hne : l ≠ [])
    (hd : ∀ x ∈ l, ∀ y ∈ l, x < y → d x < d y) :
    bestThetaOf f l ≤ bestThetaOf (fun x => f x + d x) l := by
  set rf := bestThetaOf f l with hrf
  set rg := bestThetaOf (fun x => f x + d x) l with hrg
  by_contra hcon
  have hlt : rg < rf := not_le.mp hcon
  have hrfm : rf ∈ l := bestThetaOf_mem f l hne
  have hrgm : rg ∈ l := bestThetaOf_mem (fun x => f x + d x) l hne
  have h1 : f rf + d rf ≤ f rg + d rg :=
    le_bestThetaOf (fun x => f x + d x) l rf hrfm
  have h2 : f rg ≤ f rf := le_bestThetaOf f l rg hrgm
  have h3 : d rg < d rf := hd rg hrgm rf hrfm hlt
  linarith

lemma thetaGrid_length : thetaGrid.length = 121 := by
  rw [thetaGrid, List.length_map, List.length_range]

lemma thetaGrid_ne_nil : thetaGrid ≠ [] := by
  intro h
  have h1 := thetaGrid_length
  rw [h] at h1
  simp at h1

lemma thetaGrid_pairwise : thetaGrid.Pairwise (· < ·) := by
  rw [thetaGrid, List.pairwise_map]
  refine (List.pairwise_lt_range 121).imp ?_
  intro a b hab
  have h1 : (a : ℚ) < (b : ℚ) := by exact_mod_cast hab
  have h2 : (a : ℚ) / 20 < (b : ℚ) / 20 := by
    rw [div_lt_div_iff_of_pos_right (by norm_num : (0:ℚ) < 20)]
    exact h1
  linarith

lemma neg_three_mem_thetaGrid : (-3 : ℚ) ∈ thetaGrid := by
  rw [thetaGrid]
  apply List.mem_map.mpr
  refine ⟨0, List.mem_range.mpr (by norm_num), by norm_num⟩

lemma three_mem_thetaGrid : (3 : ℚ) ∈ thetaGrid := by
  rw [thetaGrid]
  apply List.mem_map.mpr
  refine ⟨120, List.mem_range.mpr (by norm_num), by norm_num⟩

lemma thetaGrid_bounds : ∀ x ∈ thetaGrid, -3 ≤ x ∧ x ≤ 3 := by
  intro x hx
  rw [thetaGrid] at hx
  rcases List.mem_map.mp hx with ⟨k, hk, rfl⟩
  have hk' : k ≤ 120 := by
    have h := List.mem_range.mp hk
    omega
  have h1 : (0 : ℚ) ≤ (k : ℚ) := by positivity
  have h2 : (k : ℚ) ≤ 120 := by exact_mod_cast hk'
  have h3 : (0 : ℚ) ≤ (k : ℚ) / 20 := by positivity
  have h4 : (k : ℚ) / 20 ≤ 6 := by
    rw [div_le_iff₀ (by norm_num : (0:ℚ) < 20)]
    linarith
  exact ⟨by linarith, by linarith⟩

lemma foldl_add_eq (f : ℕ → ℚ) (l : List ℕ) :
    ∀ a : ℚ, l.foldl (fun acc q => acc + f q) a = a + (l.map f).sum := by
  induction l with
  | nil => intro a; simp
  | cons x t ih =>
    intro a
    rw [List.foldl_cons, ih, List.map_cons, List.sum_cons]
    ring

lemma sumList_eq_sum (l : List ℚ) : sumList l = l.sum := by
  have key : ∀ (t : List ℚ) (a : ℚ), t.foldl (· + ·) a = a + t.sum := by
    intro t
    induction t with
    | nil => intro a; simp
    | cons x r ih => intro a; rw [List.foldl_cons, ih, List.sum_cons]; ring
  rw [sumList, key, zero_add]

lemma facetLogLik_eq_sum (E L : ℚ → ℚ) (bank : ℕ → Question) (answers : AnswerSet)
    (qs : List ℕ) (theta : ℚ) :
    facetLogLik E L bank answers qs theta =
      (qs.map (answerContrib E L bank answers theta)).sum := by
  rw [facetLogLik, foldl_add_eq, zero_add]

lemma answerContrib_congr (E L : ℚ → ℚ) (bank : ℕ → Question)
    (A A' : AnswerSet) (theta : ℚ) (q : ℕ) (h : A (q + 1) = A' (q + 1)) :
    answerContrib E L bank A theta q = answerContrib E L bank A' theta q := by
  rw [answerContrib, answerContrib, h]

lemma facetLogLik_congr (E L : ℚ → ℚ) (bank : ℕ → Question)
    (A A' : AnswerSet) (qs : List ℕ) (theta : ℚ)
    (h : ∀ q ∈ qs, A (q + 1) = A' (q + 1)) :
    facetLogLik E L bank A qs theta = facetLogLik E L bank A' qs theta := by
  rw [facetLogLik_eq_sum, facetLogLik_eq_sum]
  congr 1
  apply List.map_congr_left
  intro q hq
  exact answerContrib_congr E L bank A A' theta q (h q hq)

lemma answerContrib_of_none (E L : ℚ → ℚ) (bank : ℕ → Question)
    (A : AnswerSet) (theta : ℚ) (q : ℕ) (h : A (q + 1) = none) :
    answerContrib E L bank A theta q = 0 := by
  rw [answerContrib, h]

/-- The sum over a duplicate-free list when exactly one position changes. -/
lemma sum_map_single_update (f g : ℕ → ℚ) (l : List ℕ) (q : ℕ)
    (hq : q ∈ l) (hnd : l.Nodup) (hoth : ∀ x ∈ l, x ≠ q → f x = g x) :
    (l.map g).sum = (l.map f).sum + (g q - f q) := by
  induction l with
  | nil => exact absurd hq (List.not_mem_nil q)
  | cons a t ih =>
    rw [List.map_cons, List.map_cons, List.sum_cons, List.sum_cons]
    rcases List.mem_cons.mp hq with rfl | hqt
    · have hqt : q ∉ t := (List.nodup_cons.mp hnd).1
      have heq : t.map f = t.map g := by
        apply List.map_congr_left
        intro x hx
        exact hoth x (List.mem_cons_of_mem _ hx) (fun hxa => hqt (hxa ▸ hx))
      rw [heq]
      ring
    · have ha : f a = g a :=
        hoth a (List.mem_cons_self _ _)
          (fun haq => (List.nodup_cons.mp hnd).1 (haq ▸ hqt))
      rw [ih hqt (List.nodup_cons.mp hnd).2
        (fun x hx hxq => hoth x (List.mem_cons_of_mem _ hx) hxq), ha]
      ring

lemma facetToQuestionMap_nodup (f : String) : (facetToQuestionMap f).Nodup :=
  (List.nodup_range 93).filter _

lemma mem_facetToQuestionMap {q : ℕ} {f : String} :
    q ∈ facetToQuestionMap f ↔ q < 93 ∧ (itemAt q).primaryFacet = f := by
  rw [facetToQuestionMap, List.mem_filter, List.mem_range]
  simp only [decide_eq_true_eq]

lemma linExp_pos : ∀ x : ℚ, 0 < linExp x := by
  intro x
  rw [linExp]
  rcases le_or_lt 0 x with h | h
  · rw [if_pos h]; linarith
  · rw [if_neg (not_le.mpr h)]
    have : (0 : ℚ) < 1 - x := by linarith
    positivity

lemma linExp_strictMono : ∀ x y : ℚ, x < y → linExp x < linExp y := by
  intro x y hxy
  rw [linExp, linExp]
  rcases le_or_lt 0 x with hx | hx
  · rw [if_pos hx, if_pos (le_of_lt (lt_of_le_of_lt hx hxy))]
    linarith
  · rw [if_neg (not_le.mpr hx)]
    rcases le_or_lt 0 y with hy | hy
    · rw [if_pos hy]
      have h1 : (1 : ℚ) < 1 - x := by linarith
      have h2 : 1 / (1 - x) < 1 := by
        rw [div_lt_one (by linarith)]
        linarith
      linarith
    · rw [if_neg (not_le.mpr hy)]
      have h1 : (0 : ℚ) < 1 - y := by linarith
      have h2 : (1 : ℚ) - y < 1 - x := by linarith
      rw [div_lt_div_iff_of_pos_left (by norm_num) (by linarith) h1]
      exact h2

lemma linExp_reflect : ∀ x : ℚ, linExp (-x) * linExp x = 1 := by
  intro x
  rw [linExp, linExp]
  rcases lt_trichotomy x 0 with h | h | h
  · rw [if_pos (by linarith : (0:ℚ) ≤ -x), if_neg (not_le.mpr h)]
    have : (1 : ℚ) - x ≠ 0 := by linarith
    field_simp
    ring
  · rw [h]
    norm_num
  · rw [if_neg (by linarith : ¬ (0:ℚ) ≤ -x), if_pos (le_of_lt h)]
    have : (1 : ℚ) + x ≠ 0 := by linarith
    have h2 : (1 : ℚ) - -x = 1 + x := by ring
    rw [h2]
    field_simp

lemma linLog_strictMonoOn : ∀ x y : ℚ, 0 < x → x < y → linLog x < linLog y := by
  intro x y hx hxy
  rw [linLog, linLog]
  rcases le_or_lt 1 x with h1 | h1
  · rw [if_pos h1, if_pos (le_of_lt (lt_of_le_of_lt h1 hxy))]
    linarith
  · rw [if_neg (not_le.mpr h1)]
    rcases le_or_lt 1 y with h2 | h2
    · rw [if_pos h2]
      have h3 : (1 : ℚ) < 1 / x := by
        rw [lt_div_iff₀ hx]
        linarith
      linarith
    · rw [if_neg (not_le.mpr h2)]
      have h3 : 1 / y < 1 / x := div_lt_div_of_pos_left (by norm_num) hx hxy
      linarith

lemma probability_pos (E : ℚ → ℚ) (hEpos : ∀ x, 0 < E x) (theta a b : ℚ) :
    0 < probability E theta a b := by
  rw [probability]
  have := hEpos (-(a * (theta - b)))
  positivity

lemma probability_lt_one (E : ℚ → ℚ) (hEpos : ∀ x, 0 < E x) (theta a b : ℚ) :
    probability E theta a b < 1 := by
  rw [probability]
  have h := hEpos (-(a * (theta - b)))
  rw [div_lt_one (by linarith)]
  linarith

lemma probability_strictMono (E : ℚ → ℚ)
    (hE : ∀ x y : ℚ, x < y → E x < E y) (hEpos : ∀ x, 0 < E x)
    {a : ℚ} (ha : 0 < a) (b : ℚ) {t t' : ℚ} (ht : t < t') :
    probability E t a b < probability E t' a b := by
  rw [probability, probability]
  have hz : -(a * (t' - b)) < -(a * (t - b)) := by nlinarith
  have hE1 := hE _ _ hz
  have hp1 := hEpos (-(a * (t' - b)))
  have hp2 := hEpos (-(a * (t - b)))
  rw [div_lt_div_iff_of_pos_left (by norm_num) (by linarith) (by linarith)]
  linarith

lemma answerContrib_some (E L : ℚ → ℚ) (bank : ℕ → Question) (A : AnswerSet)
    (theta : ℚ) (q : ℕ) (c : Choice) (hc : A (q + 1) = some c) :
    answerContrib E L bank A theta q =
      if ((bank q).optionOf c).pole = (configOfD (itemAt q).dichotomy).pole1 then
        L (if probability E theta (itemAt q).a (itemAt q).b = 0 then logEps
           else probability E theta (itemAt q).a (itemAt q).b)
      else
        L (if 1 - probability E theta (itemAt q).a (itemAt q).b = 0 then logEps
           else 1 - probability E theta (itemAt q).a (itemAt q).b) := by
  rw [answerContrib, hc]

lemma answerContrib_eq_pos (E L : ℚ → ℚ) (bank : ℕ → Question) (A : AnswerSet)
    (theta : ℚ) (q : ℕ) (c : Choice) (hEpos : ∀ x, 0 < E x)
    (hc : A (q + 1) = some c)
    (hpole : ((bank q).optionOf c).pole = (configOfD (itemAt q).dichotomy).pole1) :
    answerContrib E L bank A theta q =
      L (probability E theta (itemAt q).a (itemAt q).b) := by
  rw [answerContrib_some E L bank A theta q c hc]
  rw [if_pos hpole,
    if_neg (ne_of_gt (probability_pos E hEpos theta (itemAt q).a (itemAt q).b))]

lemma answerContrib_eq_neg (E L : ℚ → ℚ) (bank : ℕ → Question) (A : AnswerSet)
    (theta : ℚ) (q : ℕ) (c : Choice) (hEpos : ∀ x, 0 < E x)
    (hc : A (q + 1) = some c)
    (hpole : ((bank q).optionOf c).pole ≠ (configOfD (itemAt q).dichotomy).pole1) :
    answerContrib E L bank A theta q =
      L (1 - probability E theta (itemAt q).a (itemAt q).b) := by
  rw [answerContrib_some E L bank A theta q c hc]
  rw [if_neg hpole]
  have h1 : probability E theta (itemAt q).a (itemAt q).b < 1 :=
    probability_lt_one E hEpos theta _ _
  rw [if_neg (by intro h; linarith [sub_eq_zero.mp h])]

lemma findBestThetaForFacet_eq (E L : ℚ → ℚ) (bank : ℕ → Question)
    (A : AnswerSet) (f : String) (hne : facetToQuestionMap f ≠ []) :
    findBestThetaForFacet E L bank A f =
      bestThetaOf (facetLogLik E L bank A (facetToQuestionMap f)) thetaGrid := by
  rw [findBestThetaForFacet, if_neg hne]

lemma findBestThetaForFacet_mem_grid (E L : ℚ → ℚ) (bank : ℕ → Question)
    (A : AnswerSet) (f : String) (hne : facetToQuestionMap f ≠ []) :
    findBestThetaForFacet E L bank A f ∈ thetaGrid := by
  rw [findBestThetaForFacet_eq E L bank A f hne]
  exact bestThetaOf_mem _ thetaGrid thetaGrid_ne_nil

/-- A facet none of whose questions is answered scores 0 log-likelihood at
    every grid point, so the scan stops at the very first grid point -3.0. -/
lemma findBestThetaForFacet_unanswered (E L : ℚ → ℚ) (bank : ℕ → Question)
    (A : AnswerSet) (f : String) (hne : facetToQuestionMap f ≠ [])
    (hnone : ∀ q ∈ facetToQuestionMap f, A (q + 1) = none) :
    findBestThetaForFacet E L bank A f = -3 := by
  rw [findBestThetaForFacet_eq E L bank A f hne]
  apply bestThetaOf_const _ thetaGrid 0 (-3) thetaGrid_pairwise
  · intro x _
    rw [facetLogLik_eq_sum]
    apply List.sum_eq_zero
    intro y hy
    rcases List.mem_map.mp hy with ⟨q, hq, rfl⟩
    exact answerContrib_of_none E L bank A x q (hnone q hq)
  · exact neg_three_mem_thetaGrid
  · intro x hx
    exact (thetaGrid_bounds x hx).1

/-- A facet all of whose answered questions carry the positive-pole choice has
    strictly increasing log-likelihood, hence scans to +3.0 (provided at
    least one of its questions is answered). -/
lemma findBestThetaForFacet_allPos (E L : ℚ → ℚ) (bank : ℕ → Question)
    (A : AnswerSet) (f : String) (hne : facetToQuestionMap f ≠ [])
    (hE : ∀ x y : ℚ, x < y → E x < E y) (hEpos : ∀ x, 0 < E x)
    (hL : ∀ x y : ℚ, 0 < x → x < y → L x < L y)
    (ha : ∀ q ∈ facetToQuestionMap f, 0 < (itemAt q).a)
    (hans : ∀ q ∈ facetToQuestionMap f, ∀ c, A (q + 1) = some c →
      ((bank q).optionOf c).pole = (configOfD (itemAt q).dichotomy).pole1)
    (hsome : ∃ q ∈ facetToQuestionMap f, A (q + 1) ≠ none) :
    findBestThetaForFacet E L bank A f = 3 := by
  rw [findBestThetaForFacet_eq E L bank A f hne]
  apply bestThetaOf_strictMono _ thetaGrid 3 _ three_mem_thetaGrid
    (fun x hx => (thetaGrid_bounds x hx).2)
  intro x _ y _ hxy
  rw [facetLogLik_eq_sum, facetLogLik_eq_sum]
  apply List.sum_lt_sum
  · intro q hq
    cases hAq : A (q + 1) with
    | none =>
      rw [answerContrib_of_none E L bank A x q hAq,
        answerContrib_of_none E L bank A y q hAq]
    | some c =>
      have hp := hans q hq c hAq
      rw [answerContrib_eq_pos E L bank A x q c hEpos hAq hp,
        answerContrib_eq_pos E L bank A y q c hEpos hAq hp]
      exact le_of_lt (hL _ _ (probability_pos E hEpos x _ _)
        (probability_strictMono E hE hEpos (ha q hq) (itemAt q).b hxy))
  · rcases hsome with ⟨q, hq, hAq⟩
    refine ⟨q, hq, ?_⟩
    cases hc : A (q + 1) with
    | none => exact absurd hc hAq
    | some c =>
      have hp := hans q hq c hc
      rw [answerContrib_eq_pos E L bank A x q c hEpos hc hp,
        answerContrib_eq_pos E L bank A y q c hEpos hc hp]
      exact hL _ _ (probability_pos E hEpos x _ _)
        (probability_strictMono E hE hEpos (ha q hq) (itemAt q).b hxy)

/-- A facet all of whose answered questions carry the negative-pole choice has
    strictly decreasing log-likelihood, hence scans to -3.0. -/
lemma findBestThetaForFacet_allNeg (E L : ℚ → ℚ) (bank : ℕ → Question)
    (A : AnswerSet) (f : String) (hne : facetToQuestionMap f ≠ [])
    (hE : ∀ x y : ℚ, x < y → E x < E y) (hEpos : ∀ x, 0 < E x)
    (hL : ∀ x y : ℚ, 0 < x → x < y → L x < L y)
    (ha : ∀ q ∈ facetToQuestionMap f, 0 < (itemAt q).a)
    (hans : ∀ q ∈ facetToQuestionMap f, ∀ c, A (q + 1) = some c →
      ((bank q).optionOf c).pole ≠ (configOfD (itemAt q).dichotomy).pole1) :
    findBestThetaForFacet E L bank A f = -3 := by
  by_cases hsome : ∃ q ∈ facetToQuestionMap f, A (q + 1) ≠ none
  · rw [findBestThetaForFacet_eq E L bank A f hne]
    apply bestThetaOf_strictAnti _ thetaGrid (-3) _ neg_three_mem_thetaGrid
      (fun x hx => (thetaGrid_bounds x hx).1)
    intro x _ y _ hxy
    rw [facetLogLik_eq_sum, facetLogLik_eq_sum]
    apply List.sum_lt_sum
    · intro q hq
      cases hAq : A (q + 1) with
      | none =>
        rw [answerContrib_of_none E L bank A x q hAq,
          answerContrib_of_none E L bank A y q hAq]
      | some c =>
        have hp := hans q hq c hAq
        rw [answerContrib_eq_neg E L bank A x q c hEpos hAq hp,
          answerContrib_eq_neg E L bank A y q c hEpos hAq hp]
        have h1 : probability E x (itemAt q).a (itemAt q).b <
            probability E y (itemAt q).a (itemAt q).b :=
          probability_strictMono E hE hEpos (ha q hq) (itemAt q).b hxy
        have h2 : probability E y (itemAt q).a (itemAt q).b < 1 :=
          probability_lt_one E hEpos y _ _
        exact le_of_lt (hL _ _ (by linarith) (by linarith))
    · rcases hsome with ⟨q, hq, hAq⟩
      refine ⟨q, hq, ?_⟩
      cases hc : A (q + 1) with
      | none => exact absurd hc hAq
      | some c =>
        have hp := hans q hq c hc
        rw [answerContrib_eq_neg E L bank A x q c hEpos hc hp,
          answerContrib_eq_neg E L bank A y q c hEpos hc hp]
        have h1 : probability E x (itemAt q).a (itemAt q).b <
            probability E y (itemAt q).a (itemAt q).b :=
          probability_strictMono E hE hEpos (ha q hq) (itemAt q).b hxy
        have h2 : probability E y (itemAt q).a (itemAt q).b < 1 :=
          probability_lt_one E hEpos y _ _
        exact hL _ _ (by linarith) (by linarith)
  · apply findBestThetaForFacet_unanswered E L bank A f hne
    intro q hq
    by_contra hc
    exact hsome ⟨q, hq, hc⟩

/-- Changing the single answer of question `q` from a negative-pole choice to
    a positive-pole choice adds a strictly increasing difference to the
    log-likelihood of `q`'s facet, so the scanned facet theta cannot
    decrease. -/
lemma findBestThetaForFacet_single_flip (E L : ℚ → ℚ) (bank : ℕ → Question)
    (A A' : AnswerSet) (f : String) (q : ℕ) (c c' : Choice)
    (hE : ∀ x y : ℚ, x < y → E x < E y) (hEpos : ∀ x, 0 < E x)
    (hL : ∀ x y : ℚ, 0 < x → x < y → L x < L y)
    (hq : q ∈ facetToQuestionMap f) (ha : 0 < (itemAt q).a)
    (hc : A (q + 1) = some c) (hc' : A' (q + 1) = some c')
    (hneg : ((bank q).optionOf c).pole ≠ (configOfD (itemAt q).dichotomy).pole1)
    (hpos : ((bank q).optionOf c').pole = (configOfD (itemAt q).dichotomy).pole1)
    (hagree : ∀ n, n ≠ q + 1 → A n = A' n) :
    findBestThetaForFacet E L bank A f ≤ findBestThetaForFacet E L bank A' f := by
  have hne : facetToQuestionMap f ≠ [] := by
    intro h; rw [h] at hq; exact List.not_mem_nil q hq
  rw [findBestThetaForFacet_eq E L bank A f hne,
    findBestThetaForFacet_eq E L bank A' f hne]
  have hfun : facetLogLik E L bank A' (facetToQuestionMap f) = fun theta =>
      facetLogLik E L bank A (facetToQuestionMap f) theta +
        (L (probability E theta (itemAt q).a (itemAt q).b) -
          L (1 - probability E theta (itemAt q).a (itemAt q).b)) := by
    funext theta
    rw [facetLogLik_eq_sum, facetLogLik_eq_sum]
    have := sum_map_single_update
      (answerContrib E L bank A theta) (answerContrib E L bank A' theta)
      (facetToQuestionMap f) q hq (facetToQuestionMap_nodup f)
      (fun x _ hxq => answerContrib_congr E L bank A A' theta x
        (hagree (x + 1) (by omega)))
    rw [this, answerContrib_eq_pos E L bank A' theta q c' hEpos hc' hpos,
      answerContrib_eq_neg E L bank A theta q c hEpos hc hneg]
  rw [hfun]
  apply bestThetaOf_add_mono _ _ thetaGrid thetaGrid_ne_nil
  intro x _ y _ hxy
  have hpx : 0 < probability E x (itemAt q).a (itemAt q).b :=
    probability_pos E hEpos x _ _
  have hpy1 : probability E y (itemAt q).a (itemAt q).b < 1 :=
    probability_lt_one E hEpos y _ _
  have hmono : probability E x (itemAt q).a (itemAt q).b <
      probability E y (itemAt q).a (itemAt q).b :=
    probability_strictMono E hE hEpos ha (itemAt q).b hxy
  have h1 : L (probability E x (itemAt q).a (itemAt q).b) <
      L (probability E y (itemAt q).a (itemAt q).b) := hL _ _ hpx hmono
  have h2 : L (1 - probability E y (itemAt q).a (itemAt q).b) <
      L (1 - probability E x (itemAt q).a (itemAt q).b) :=
    hL _ _ (by linarith) (by linarith)
  linarith

lemma facetScores_eq_some (E L : ℚ → ℚ) (bank : ℕ → Question) (A : AnswerSet)
    (f : String) (hmem : f ∈ ALL_FACETS) (hne : facetToQuestionMap f ≠ []) :
    facetScores E L bank A f =
      some (round2 (findBestThetaForFacet E L bank A f)) := by
  rw [facetScores, if_pos ⟨hmem, hne⟩]

lemma facetScores_eq_none (E L : ℚ → ℚ) (bank : ℕ → Question) (A : AnswerSet)
    (f : String) (h : ¬ (f ∈ ALL_FACETS ∧ facetToQuestionMap f ≠ [])) :
    facetScores E L bank A f = none := by
  rw [facetScores, if_neg h]

lemma findBestThetaForFacet_congr (E L : ℚ → ℚ) (bank : ℕ → Question)
    (A A' : AnswerSet) (f : String)
    (h : ∀ q ∈ facetToQuestionMap f, A (q + 1) = A' (q + 1)) :
    findBestThetaForFacet E L bank A f = findBestThetaForFacet E L bank A' f := by
  by_cases hne : facetToQuestionMap f = []
  · rw [findBestThetaForFacet, if_pos hne, findBestThetaForFacet, if_pos hne]
  · rw [findBestThetaForFacet_eq E L bank A f hne,
      findBestThetaForFacet_eq E L bank A' f hne]
    have hfun : facetLogLik E L bank A (facetToQuestionMap f) =
        facetLogLik E L bank A' (facetToQuestionMap f) := by
      funext theta
      exact facetLogLik_congr E L bank A A' (facetToQuestionMap f) theta h
    rw [hfun]

lemma facetScores_congr (E L : ℚ → ℚ) (bank : ℕ → Question)
    (A A' : AnswerSet) (f : String)
    (h : ∀ q ∈ facetToQuestionMap f, A (q + 1) = A' (q + 1)) :
    facetScores E L bank A f = facetScores E L bank A' f := by
  rw [facetScores, facetScores, findBestThetaForFacet_congr E L bank A A' f h]

/-- Bounds of every present facet theta: scan results live on the grid and
    two-decimal rounding preserves the interval [-3, 3]. -/
lemma facetScores_bounds (E L : ℚ → ℚ) (bank : ℕ → Question) (A : AnswerSet)
    (f : String) (x : ℚ) (h : facetScores E L bank A f = some x) :
    -3 ≤ x ∧ x ≤ 3 := by
  rw [facetScores] at h
  by_cases hcond : f ∈ ALL_FACETS ∧ facetToQuestionMap f ≠ []
  · rw [if_pos hcond] at h
    have hx : x = round2 (findBestThetaForFacet E L bank A f) :=
      (Option.some_injective _ h).symm
    have hmem := findBestThetaForFacet_mem_grid E L bank A f hcond.2
    have hb := thetaGrid_bounds _ hmem
    constructor
    · rw [hx, ← round2_neg_three]
      exact round2_mono hb.1
    · rw [hx, ← round2_three]
      exact round2_mono hb.2
  · rw [if_neg hcond] at h
    cases h

lemma presentThetas_bounds (E L : ℚ → ℚ) (bank : ℕ → Question) (A : AnswerSet)
    (cfg : DichotomyConfig) :
    ∀ x ∈ presentThetas (facetScores E L bank A) cfg, -3 ≤ x ∧ x ≤ 3 := by
  intro x hx
  rw [presentThetas] at hx
  rcases List.mem_filterMap.mp hx with ⟨f, _, hf⟩
  exact facetScores_bounds E L bank A f x hf

lemma sum_bounds (l : List ℚ) (lo hi : ℚ) (h : ∀ x ∈ l, lo ≤ x ∧ x ≤ hi) :
    lo * l.length ≤ l.sum ∧ l.sum ≤ hi * l.length := by
  induction l with
  | nil => simp
  | cons x t ih =>
    have hx := h x (List.mem_cons_self _ _)
    have ht := ih (fun y hy => h y (List.mem_cons_of_mem _ hy))
    rw [List.sum_cons, List.length_cons]
    push_cast
    constructor <;> nlinarith [ht.1, ht.2, hx.1, hx.2]

/-- The composite theta is an average of values in [-3, 3], so lies in
    [-3, 3] itself (also when the facet list is empty: 0 / 0 = 0). -/
lemma compositeTheta_bounds (E L : ℚ → ℚ) (bank : ℕ → Question) (A : AnswerSet)
    (cfg : DichotomyConfig) :
    -3 ≤ compositeTheta (facetScores E L bank A) cfg ∧
      compositeTheta (facetScores E L bank A) cfg ≤ 3 := by
  rw [compositeTheta, sumList_eq_sum]
  rcases Nat.eq_zero_or_pos (presentThetas (facetScores E L bank A) cfg).length
    with h0 | hpos
  · rw [h0]
    norm_num
  · have hb := sum_bounds _ (-3) 3 (presentThetas_bounds E L bank A cfg)
    have hlen : (0 : ℚ) < (presentThetas (facetScores E L bank A) cfg).length := by
      exact_mod_cast hpos
    constructor
    · rw [le_div_iff₀ hlen]
      linarith [hb.1]
    · rw [div_le_iff₀ hlen]
      linarith [hb.2]

/-- Pointwise comparison of two facet-score functions lifts to the filtered
    theta lists: same length, and the sums compare. -/
lemma filterMap_mono (s s' : String → Option ℚ) (fs : List String)
    (hiff : ∀ f ∈ fs, (s f).isSome = (s' f).isSome)
    (hle : ∀ f ∈ fs, ∀ x x', s f = some x → s' f = some x' → x ≤ x') :
    (fs.filterMap s).length = (fs.filterMap s').length ∧
      (fs.filterMap s).sum ≤ (fs.filterMap s').sum := by
  induction fs with
  | nil => simp
  | cons f t ih =>
    have hiff' := hiff f (List.mem_cons_self _ _)
    have ihr := ih (fun g hg => hiff g (List.mem_cons_of_mem _ hg))
      (fun g hg => hle g (List.mem_cons_of_mem _ hg))
    cases hs : s f with
    | none =>
      have hs' : s' f = none := by
        rw [hs] at hiff'
        cases hs'' : s' f with
        | none => rfl
        | some y => rw [hs''] at hiff'; simp at hiff'
      rw [List.filterMap_cons, List.filterMap_cons, hs, hs']
      exact ihr
    | some x =>
      have hs' : ∃ x', s' f = some x' := by
        rw [hs] at hiff'
        cases hs'' : s' f with
        | none => rw [hs''] at hiff'; simp at hiff'
        | some y => exact ⟨y, rfl⟩
      rcases hs' with ⟨x', hs'⟩
      rw [List.filterMap_cons, List.filterMap_cons, hs, hs']
      constructor
      · simp [ihr.1]
      · rw [List.sum_cons, List.sum_cons]
        have := hle f (List.mem_cons_self _ _) x x' hs hs'
        linarith [ihr.2]

lemma computeComposite_eq (s : String → Option ℚ) (name : String)
    (cfg : DichotomyConfig) (hlook : lookupConfig name = some cfg)
    (hne : (presentThetas s cfg).length ≠ 0) :
    computeCompositeDichotomyScores s name = some
      { preference := preferenceFromTheta cfg (compositeTheta s cfg)
        pci := pciFromTheta (compositeTheta s cfg)
        pcc := getPccCategory (pciFromTheta (compositeTheta s cfg))
        theta := round2 (compositeTheta s cfg)
        dichotomyName := name } := by
  rw [computeCompositeDichotomyScores, hlook]
  exact if_neg hne

lemma computeComposite_some (s : String → Option ℚ) (name : String)
    (r : DichotomyResult) (h : computeCompositeDichotomyScores s name = some r) :
    ∃ cfg, lookupConfig name = some cfg ∧ (presentThetas s cfg).length ≠ 0 ∧
      r = { preference := preferenceFromTheta cfg (compositeTheta s cfg)
            pci := pciFromTheta (compositeTheta s cfg)
            pcc := getPccCategory (pciFromTheta (compositeTheta s cfg))
            theta := round2 (compositeTheta s cfg)
            dichotomyName := name } := by
  cases hl : lookupConfig name with
  | none =>
    rw [computeCompositeDichotomyScores, hl] at h
    cases h
  | some cfg =>
    rw [computeCompositeDichotomyScores, hl] at h
    have h' : (if (presentThetas s cfg).length = 0 then (none : Option DichotomyResult)
        else some { preference := preferenceFromTheta cfg (compositeTheta s cfg)
                    pci := pciFromTheta (compositeTheta s cfg)
                    pcc := getPccCategory (pciFromTheta (compositeTheta s cfg))
                    theta := round2 (compositeTheta s cfg)
                    dichotomyName := name }) = some r := h
    by_cases hne : (presentThetas s cfg).length = 0
    · rw [if_pos hne] at h'
      cases h'
    · rw [if_neg hne] at h'
      exact ⟨cfg, rfl, hne, (Option.some_injective _ h').symm⟩

lemma lookupConfig_mem (name : String) (cfg : DichotomyConfig)
    (h : lookupConfig name = some cfg) : cfg ∈ DICHOTOMY_CONFIG.map Prod.snd := by
  rw [lookupConfig] at h
  cases hf : DICHOTOMY_CONFIG.find? (fun p => p.1 = name) with
  | none => rw [hf] at h; cases h
  | some pair =>
    rw [hf] at h
    have hmem := List.mem_of_find?_eq_some hf
    have : pair.2 = cfg := (Option.some_injective _ h)
    rw [← this]
    exact List.mem_map.mpr ⟨pair, hmem, rfl⟩

/-- In every configured dichotomy the tie-breaker letter coincides with the
    second (negative) pole and differs from the first pole. -/
lemma config_letters (cfg : DichotomyConfig)
    (h : cfg ∈ DICHOTOMY_CONFIG.map Prod.snd) :
    cfg.tieBreaker = cfg.pole2 ∧ cfg.pole1 ≠ cfg.pole2 := by
  have : ∀ c ∈ DICHOTOMY_CONFIG.map Prod.snd,
      c.tieBreaker = c.pole2 ∧ c.pole1 ≠ c.pole2 := by decide
  exact this cfg h

lemma lookupConfig_pair (name : String) (cfg : DichotomyConfig)
    (h : lookupConfig name = some cfg) : (name, cfg) ∈ DICHOTOMY_CONFIG := by
  rw [lookupConfig] at h
  cases hf : DICHOTOMY_CONFIG.find? (fun p => p.1 = name) with
  | none => rw [hf] at h; cases h
  | some pair =>
    rw [hf] at h
    have h1 : pair.1 = name := by
      have h0 := List.find?_some hf
      simpa using h0
    have h2 : pair.2 = cfg := Option.some_injective _ h
    have h3 := List.mem_of_find?_eq_some hf
    rw [← h1, ← h2]
    exact h3

lemma calculateResults_dichotomy (E L : ℚ → ℚ) (bank : ℕ → Question)
    (A : AnswerSet) (name : String) :
    (calculateResults E L bank A).dichotomyResults name =
      computeCompositeDichotomyScores (facetScores E L bank A) name := rfl

lemma presentThetas_length (E L : ℚ → ℚ) (bank : ℕ → Question) (A : AnswerSet)
    (cfg : DichotomyConfig) :
    (presentThetas (facetScores E L bank A) cfg).length = presentCount cfg := by
  rw [presentThetas, presentCount]
  induction cfg.facets with
  | nil => rfl
  | cons f t ih =>
    rw [List.filterMap_cons, List.filter_cons]
    by_cases hcond : f ∈ ALL_FACETS ∧ facetToQuestionMap f ≠ []
    · rw [facetScores_eq_some E L bank A f hcond.1 hcond.2]
      simp only [decide_eq_true hcond, if_true, List.length_cons, ih]
    · rw [facetScores_eq_none E L bank A f hcond]
      simp [decide_eq_false hcond, ih]

lemma presentCount_values :
    presentCount eiCfg = 8 ∧ presentCount snCfg = 6 ∧
      presentCount tfCfg = 9 ∧ presentCount jpCfg = 8 := by decide

/-- If every present facet score equals `c` and the facet count is nonzero,
    the composite theta is `c`. -/
lemma compositeTheta_const (s : String → Option ℚ) (cfg : DichotomyConfig)
    (c : ℚ) (hall : ∀ x ∈ presentThetas s cfg, x = c)
    (hne : (presentThetas s cfg).length ≠ 0) :
    compositeTheta s cfg = c := by
  rw [compositeTheta, sumList_eq_sum]
  have hsum : (presentThetas s cfg).sum =
      c * (presentThetas s cfg).length := by
    have hb := sum_bounds (presentThetas s cfg) c c
      (fun x hx => ⟨le_of_eq (hall x hx).symm, le_of_eq (hall x hx)⟩)
    linarith [hb.1, hb.2]
  rw [hsum]
  have hlen : ((presentThetas s cfg).length : ℚ) ≠ 0 := by
    exact_mod_cast hne
  field_simp

/-- Inversion of a present facet theta: it comes from a mapped facet of the
    dichotomy's list. -/
lemma presentThetas_inv (E L : ℚ → ℚ) (bank : ℕ → Question) (A : AnswerSet)
    (cfg : DichotomyConfig) (x : ℚ)
    (hx : x ∈ presentThetas (facetScores E L bank A) cfg) :
    ∃ f ∈ cfg.facets, facetToQuestionMap f ≠ [] ∧
      x = round2 (findBestThetaForFacet E L bank A f) := by
  rw [presentThetas] at hx
  rcases List.mem_filterMap.mp hx with ⟨f, hf, hsf⟩
  rw [facetScores] at hsf
  by_cases hcond : f ∈ ALL_FACETS ∧ facetToQuestionMap f ≠ []
  · rw [if_pos hcond] at hsf
    exact ⟨f, hf, hcond.2, (Option.some_injective _ hsf).symm⟩
  · rw [if_neg hcond] at hsf
    cases hsf

lemma preferenceFromTheta_pos (cfg : DichotomyConfig) (theta : ℚ)
    (h : 1/100 < theta) : preferenceFromTheta cfg theta = cfg.pole1 := by
  rw [preferenceFromTheta, if_pos h]

lemma preferenceFromTheta_neg (cfg : DichotomyConfig) (theta : ℚ)
    (h : theta < -(1/100)) : preferenceFromTheta cfg theta = cfg.pole2 := by
  rw [preferenceFromTheta, if_neg (by linarith), if_pos h]

lemma preferenceFromTheta_band (cfg : DichotomyConfig) (theta : ℚ)
    (h1 : -(1/100) ≤ theta) (h2 : theta ≤ 1/100) :
    preferenceFromTheta cfg theta = cfg.tieBreaker := by
  rw [preferenceFromTheta, if_neg (by linarith), if_neg (by linarith)]

lemma pciFromTheta_neg_three : pciFromTheta (-3) = 30 := by
  rw [pciFromTheta, jsAbs, if_pos (by norm_num : (-3 : ℚ) < 0)]
  norm_num [jsMin, jsRound, jsMaxI]

lemma pciFromTheta_at (theta : ℚ) (h1 : -3 ≤ theta) (h2 : theta ≤ 3) :
    pciFromTheta theta = jsMaxI 1 (jsRound (jsAbs theta * 10)) := by
  rw [pciFromTheta]
  have habs : jsAbs theta ≤ 3 := by
    rw [jsAbs]
    rcases lt_or_le theta 0 with h | h
    · rw [if_pos h]; linarith
    · rw [if_neg (not_lt.mpr h)]; exact h2
  rw [jsMin, if_pos habs]
  congr 1
  congr 1
  ring

/-- With every question omitted, every dichotomy result reported by the
    orchestrator is theta = -3.0, preference = second pole, pci = 30,
    pcc = "Very Clear": the constant-zero log-likelihood beats `-Infinity`
    only at the first grid point -3.0. -/
lemma resNone_eval (E L : ℚ → ℚ) (bank : ℕ → Question) (name : String)
    (cfg : DichotomyConfig) (hlook : lookupConfig name = some cfg)
    (hcount : presentCount cfg ≠ 0) :
    (calculateResults E L bank ansNone).dichotomyResults name =
      some { preference := cfg.pole2, pci := 30, pcc := "Very Clear",
             theta := -3, dichotomyName := name } := by
  have hlen : (presentThetas (facetScores E L bank ansNone) cfg).length ≠ 0 := by
    rw [presentThetas_length]; exact hcount
  have hall : ∀ x ∈ presentThetas (facetScores E L bank ansNone) cfg, x = -3 := by
    intro x hx
    rcases presentThetas_inv E L bank ansNone cfg x hx with ⟨f, _, hne, hval⟩
    rw [hval, findBestThetaForFacet_unanswered E L bank ansNone f hne
      (fun q _ => rfl), round2_neg_three]
  have hcomp : compositeTheta (facetScores E L bank ansNone) cfg = -3 :=
    compositeTheta_const _ cfg (-3) hall hlen
  rw [calculateResults_dichotomy,
    computeComposite_eq (facetScores E L bank ansNone) name cfg hlook hlen, hcomp]
  rw [preferenceFromTheta_neg cfg (-3) (by norm_num), pciFromTheta_neg_three,
    round2_neg_three]
  rfl

lemma item9_eq : itemAt 9 = ⟨"E-I", "Initiating", 2.0, -0.65⟩ := rfl

lemma item89_eq : itemAt 89 = ⟨"J-P", "Methodical", 2.5, 0.0⟩ := rfl

lemma item92_eq : itemAt 92 = ⟨"J-P", "Spontaneous", 2.5, 0.0⟩ := rfl

lemma lookup_EI : lookupConfig "E-I" = some eiCfg := by decide

lemma lookup_JP : lookupConfig "J-P" = some jpCfg := by decide

lemma eiCfg_facets : eiCfg.facets =
    ["Initiating", "Expressive", "Gregarious", "Active", "Enthusiastic",
     "Receiving", "Contained", "Intimate", "Reflective", "Quiet"] := rfl

lemma jpCfg_facets : jpCfg.facets =
    ["Systematic", "Planful", "Early Starting", "Scheduled", "Methodical",
     "Casual", "Open-ended", "Pressure Prompted", "Spontaneous", "Emergent"] := rfl

lemma initiating_map : facetToQuestionMap "Initiating" = [9, 22, 82] := by decide

lemma methodical_map : facetToQuestionMap "Methodical" = [19, 44, 85, 89] := by decide

lemma spontaneous_map : facetToQuestionMap "Spontaneous" = [7, 23, 77, 83, 92] := by
  decide

lemma findBest_ansOnePos_Init (E L : ℚ → ℚ)
    (hE : ∀ x y : ℚ, x < y → E x < E y) (hEpos : ∀ x, 0 < E x)
    (hL : ∀ x y : ℚ, 0 < x → x < y → L x < L y) :
    findBestThetaForFacet E L bankC ansOnePos "Initiating" = 3 := by
  apply findBestThetaForFacet_allPos E L bankC ansOnePos "Initiating"
    (by decide) hE hEpos hL
  · rw [initiating_map]
    intro q hq
    rcases List.mem_cons.mp hq with rfl | hq2
    · exact (by norm_num : (0:ℚ) < 2.0)
    rcases List.mem_cons.mp hq2 with rfl | hq3
    · exact (by norm_num : (0:ℚ) < 2.5)
    rcases List.mem_cons.mp hq3 with rfl | hq4
    · exact (by norm_num : (0:ℚ) < 2.8)
    · exact absurd hq4 (List.not_mem_nil q)
  · rw [initiating_map]
    intro q hq c hc
    rcases List.mem_cons.mp hq with rfl | hq2
    · have hcA : c = Choice.A := by
        have : (some Choice.A : Option Choice) = some c := hc
        exact (Option.some_injective _ this).symm
      rw [hcA]
      rfl
    rcases List.mem_cons.mp hq2 with rfl | hq3
    · simp [ansOnePos] at hc
    rcases List.mem_cons.mp hq3 with rfl | hq4
    · simp [ansOnePos] at hc
    · exact absurd hq4 (List.not_mem_nil q)
  · exact ⟨9, by decide, by decide⟩

lemma findBest_ansOnePos_other (E L : ℚ → ℚ) (f : String)
    (hf : f ≠ "Initiating") (hne : facetToQuestionMap f ≠ []) :
    findBestThetaForFacet E L bankC ansOnePos f = -3 := by
  apply findBestThetaForFacet_unanswered E L bankC ansOnePos f hne
  intro q hq
  have hfq : (itemAt q).primaryFacet = f := (mem_facetToQuestionMap.mp hq).2
  have hq9 : q ≠ 9 := by
    intro h9
    subst h9
    rw [item9_eq] at hfq
    exact hf hfq.symm
  rw [ansOnePos]
  rw [if_neg (by omega)]

lemma findBest_ansOneNeg_Init (E L : ℚ → ℚ)
    (hE : ∀ x y : ℚ, x < y → E x < E y) (hEpos : ∀ x, 0 < E x)
    (hL : ∀ x y : ℚ, 0 < x → x < y → L x < L y) :
    findBestThetaForFacet E L bankC ansOneNeg "Initiating" = -3 := by
  apply findBestThetaForFacet_allNeg E L bankC ansOneNeg "Initiating"
    (by decide) hE hEpos hL
  · rw [initiating_map]
    intro q hq
    rcases List.mem_cons.mp hq with rfl | hq2
    · exact (by norm_num : (0:ℚ) < 2.0)
    rcases List.mem_cons.mp hq2 with rfl | hq3
    · exact (by norm_num : (0:ℚ) < 2.5)
    rcases List.mem_cons.mp hq3 with rfl | hq4
    · exact (by norm_num : (0:ℚ) < 2.8)
    · exact absurd hq4 (List.not_mem_nil q)
  · rw [initiating_map]
    intro q hq c hc
    rcases List.mem_cons.mp hq with rfl | hq2
    · have hcB : c = Choice.B := by
        have : (some Choice.B : Option Choice) = some c := hc
        exact (Option.some_injective _ this).symm
      rw [hcB]
      decide
    rcases List.mem_cons.mp hq2 with rfl | hq3
    · simp [ansOneNeg] at hc
    rcases List.mem_cons.mp hq3 with rfl | hq4
    · simp [ansOneNeg] at hc
    · exact absurd hq4 (List.not_mem_nil q)

lemma findBest_ansOneNeg_other (E L : ℚ → ℚ) (f : String)
    (hf : f ≠ "Initiating") (hne : facetToQuestionMap f ≠ []) :
    findBestThetaForFacet E L bankC ansOneNeg f = -3 := by
  apply findBestThetaForFacet_unanswered E L bankC ansOneNeg f hne
  intro q hq
  have hfq : (itemAt q).primaryFacet = f := (mem_facetToQuestionMap.mp hq).2
  have hq9 : q ≠ 9 := by
    intro h9
    subst h9
    rw [item9_eq] at hfq
    exact hf hfq.symm
  rw [ansOneNeg]
  rw [if_neg (by omega)]

lemma findBest_ansTwoJP_Meth (E L : ℚ → ℚ)
    (hE : ∀ x y : ℚ, x < y → E x < E y) (hEpos : ∀ x, 0 < E x)
    (hL : ∀ x y : ℚ, 0 < x → x < y → L x < L y) :
    findBestThetaForFacet E L bankC ansTwoJP "Methodical" = 3 := by
  apply findBestThetaForFacet_allPos E L bankC ansTwoJP "Methodical"
    (by decide) hE hEpos hL
  · rw [methodical_map]
    intro q hq
    rcases List.mem_cons.mp hq with rfl | hq2
    · exact (by norm_num : (0:ℚ) < 2.5)
    rcases List.mem_cons.mp hq2 with rfl | hq3
    · exact (by norm_num : (0:ℚ) < 2.0)
    rcases List.mem_cons.mp hq3 with rfl | hq4
    · exact (by norm_num : (0:ℚ) < 2.0)
    rcases List.mem_cons.mp hq4 with rfl | hq5
    · exact (by norm_num : (0:ℚ) < 2.5)
    · exact absurd hq5 (List.not_mem_nil q)
  · rw [methodical_map]
    intro q hq c hc
    rcases List.mem_cons.mp hq with rfl | hq2
    · simp [ansTwoJP] at hc
    rcases List.mem_cons.mp hq2 with rfl | hq3
    · simp [ansTwoJP] at hc
    rcases List.mem_cons.mp hq3 with rfl | hq4
    · simp [ansTwoJP] at hc
    rcases List.mem_cons.mp hq4 with rfl | hq5
    · have hcA : c = Choice.A := by
        have : (some Choice.A : Option Choice) = some c := hc
        exact (Option.some_injective _ this).symm
      rw [hcA]
      rfl
    · exact absurd hq5 (List.not_mem_nil q)
  · exact ⟨89, by decide, by decide⟩

lemma findBest_ansTwoJP_Spon (E L : ℚ → ℚ)
    (hE : ∀ x y : ℚ, x < y → E x < E y) (hEpos : ∀ x, 0 < E x)
    (hL : ∀ x y : ℚ, 0 < x → x < y → L x < L y) :
    findBestThetaForFacet E L bankC ansTwoJP "Spontaneous" = -3 := by
  apply findBestThetaForFacet_allNeg E L bankC ansTwoJP "Spontaneous"
    (by decide) hE hEpos hL
  · rw [spontaneous_map]
    intro q hq
    rcases List.mem_cons.mp hq with rfl | hq2
    · exact (by norm_num : (0:ℚ) < 2.5)
    rcases List.mem_cons.mp hq2 with rfl | hq3
    · exact (by norm_num : (0:ℚ) < 2.5)
    rcases List.mem_cons.mp hq3 with rfl | hq4
    · exact (by norm_num : (0:ℚ) < 1.6)
    rcases List.mem_cons.mp hq4 with rfl | hq5
    · exact (by norm_num : (0:ℚ) < 2.5)
    rcases List.mem_cons.mp hq5 with rfl | hq6
    · exact (by norm_num : (0:ℚ) < 2.5)
    · exact absurd hq6 (List.not_mem_nil q)
  · rw [spontaneous_map]
    intro q hq c hc
    rcases List.mem_cons.mp hq with rfl | hq2
    · simp [ansTwoJP] at hc
    rcases List.mem_cons.mp hq2 with rfl | hq3
    · simp [ansTwoJP] at hc
    rcases List.mem_cons.mp hq3 with rfl | hq4
    · simp [ansTwoJP] at hc
    rcases List.mem_cons.mp hq4 with rfl | hq5
    · simp [ansTwoJP] at hc
    rcases List.mem_cons.mp hq5 with rfl | hq6
    · have hcB : c = Choice.B := by
        have : (some Choice.B : Option Choice) = some c := hc
        exact (Option.some_injective _ this).symm
      rw [hcB]
      decide
    · exact absurd hq6 (List.not_mem_nil q)

lemma findBest_ansTwoJP_other (E L : ℚ → ℚ) (f : String)
    (hf1 : f ≠ "Methodical") (hf2 : f ≠ "Spontaneous")
    (hne : facetToQuestionMap f ≠ []) :
    findBestThetaForFacet E L bankC ansTwoJP f = -3 := by
  apply findBestThetaForFacet_unanswered E L bankC ansTwoJP f hne
  intro q hq
  have hfq : (itemAt q).primaryFacet = f := (mem_facetToQuestionMap.mp hq).2
  have hq89 : q ≠ 89 := by
    intro h89
    subst h89
    rw [item89_eq] at hfq
    exact hf1 hfq.symm
  have hq92 : q ≠ 92 := by
    intro h92
    subst h92
    rw [item92_eq] at hfq
    exact hf2 hfq.symm
  rw [ansTwoJP]
  rw [if_neg (by omega), if_neg (by omega)]

lemma round2_neg94 : round2 (-9/4 : ℚ) = -9/4 := by
  have h := round2_intMul (-225)
  have h2 : ((-225 : ℤ) : ℚ) / 100 = -9/4 := by norm_num
  rw [h2] at h
  exact h

lemma pciFromTheta_neg94 : pciFromTheta (-9/4) = 23 := by
  rw [pciFromTheta, jsAbs, if_pos (by norm_num : (-9/4 : ℚ) < 0)]
  rw [jsMin, if_pos (by norm_num : (-(-9/4) : ℚ) ≤ 3)]
  have harg : (-(-9/4) : ℚ) / 3 * 30 = 45/2 := by norm_num
  rw [harg]
  have hr : jsRound (45/2) = 23 := by
    rw [jsRound]
    norm_num
  rw [hr, jsMaxI, if_pos (by norm_num : (1 : ℤ) ≤ 23)]

lemma getPcc_23 : getPccCategory 23 = "Clear" := by
  rw [getPccCategory, if_neg (by norm_num), if_pos (by norm_num)]

lemma presentThetas_ansOnePos_EI (E L : ℚ → ℚ)
    (hE : ∀ x y : ℚ, x < y → E x < E y) (hEpos : ∀ x, 0 < E x)
    (hL : ∀ x y : ℚ, 0 < x → x < y → L x < L y) :
    presentThetas (facetScores E L bankC ansOnePos) eiCfg =
      [3, -3, -3, -3, -3, -3, -3, -3] := by
  have h1 : facetScores E L bankC ansOnePos "Initiating" = some 3 := by
    rw [facetScores_eq_some E L bankC ansOnePos "Initiating" (by decide) (by decide),
      findBest_ansOnePos_Init E L hE hEpos hL, round2_three]
  have h2 : facetScores E L bankC ansOnePos "Expressive" = some (-3) := by
    rw [facetScores_eq_some E L bankC ansOnePos "Expressive" (by decide) (by decide),
      findBest_ansOnePos_other E L "Expressive" (by decide) (by decide),
      round2_neg_three]
  have h3 : facetScores E L bankC ansOnePos "Gregarious" = some (-3) := by
    rw [facetScores_eq_some E L bankC ansOnePos "Gregarious" (by decide) (by decide),
      findBest_ansOnePos_other E L "Gregarious" (by decide) (by decide),
      round2_neg_three]
  have h4 : facetScores E L bankC ansOnePos "Active" = some (-3) := by
    rw [facetScores_eq_some E L bankC ansOnePos "Active" (by decide) (by decide),
      findBest_ansOnePos_other E L "Active" (by decide) (by decide),
      round2_neg_three]
  have h5 : facetScores E L bankC ansOnePos "Enthusiastic" = some (-3) := by
    rw [facetScores_eq_some E L bankC ansOnePos "Enthusiastic" (by decide) (by decide),
      findBest_ansOnePos_other E L "Enthusiastic" (by decide) (by decide),
      round2_neg_three]
  have h6 : facetScores E L bankC ansOnePos "Receiving" = none :=
    facetScores_eq_none E L bankC ansOnePos "Receiving" (by decide)
  have h7 : facetScores E L bankC ansOnePos "Contained" = some (-3) := by
    rw [facetScores_eq_some E L bankC ansOnePos "Contained" (by decide) (by decide),
      findBest_ansOnePos_other E L "Contained" (by decide) (by decide),
      round2_neg_three]
  have h8 : facetScores E L bankC ansOnePos "Intimate" = some (-3) := by
    rw [facetScores_eq_some E L bankC ansOnePos "Intimate" (by decide) (by decide),
      findBest_ansOnePos_other E L "Intimate" (by decide) (by decide),
      round2_neg_three]
  have h9 : facetScores E L bankC ansOnePos "Reflective" = none :=
    facetScores_eq_none E L bankC ansOnePos "Reflective" (by decide)
  have h10 : facetScores E L bankC ansOnePos "Quiet" = some (-3) := by
    rw [facetScores_eq_some E L bankC ansOnePos "Quiet" (by decide) (by decide),
      findBest_ansOnePos_other E L "Quiet" (by decide) (by decide),
      round2_neg_three]
  rw [presentThetas, eiCfg_facets]
  simp only [List.filterMap_cons, List.filterMap_nil,
    h1, h2, h3, h4, h5, h6, h7, h8, h9, h10]

lemma resOnePos_eval (E L : ℚ → ℚ)
    (hE : ∀ x y : ℚ, x < y → E x < E y) (hEpos : ∀ x, 0 < E x)
    (hL : ∀ x y : ℚ, 0 < x → x < y → L x < L y) :
    (calculateResults E L bankC ansOnePos).dichotomyResults "E-I" =
      some { preference := "I", pci := 23, pcc := "Clear",
             theta := -9/4, dichotomyName := "E-I" } := by
  have hlist := presentThetas_ansOnePos_EI E L hE hEpos hL
  have hlen : (presentThetas (facetScores E L bankC ansOnePos) eiCfg).length ≠ 0 := by
    rw [hlist]
    decide
  have hcomp : compositeTheta (facetScores E L bankC ansOnePos) eiCfg = -9/4 := by
    rw [compositeTheta, hlist, sumList_eq_sum]
    norm_num
  rw [calculateResults_dichotomy,
    computeComposite_eq (facetScores E L bankC ansOnePos) "E-I" eiCfg lookup_EI hlen,
    hcomp, preferenceFromTheta_neg eiCfg (-9/4) (by norm_num),
    pciFromTheta_neg94, getPcc_23, round2_neg94]
  rfl

lemma resOneNeg_eval (E L : ℚ → ℚ)
    (hE : ∀ x y : ℚ, x < y → E x < E y) (hEpos : ∀ x, 0 < E x)
    (hL : ∀ x y : ℚ, 0 < x → x < y → L x < L y) :
    (calculateResults E L bankC ansOneNeg).dichotomyResults "E-I" =
      some { preference := "I", pci := 30, pcc := "Very Clear",
             theta := -3, dichotomyName := "E-I" } := by
  have hall : ∀ x ∈ presentThetas (facetScores E L bankC ansOneNeg) eiCfg,
      x = -3 := by
    intro x hx
    rcases presentThetas_inv E L bankC ansOneNeg eiCfg x hx with ⟨f, _, hne, hval⟩
    by_cases hf : f = "Initiating"
    · rw [hval, hf, findBest_ansOneNeg_Init E L hE hEpos hL, round2_neg_three]
    · rw [hval, findBest_ansOneNeg_other E L f hf hne, round2_neg_three]
  have hlen : (presentThetas (facetScores E L bankC ansOneNeg) eiCfg).length ≠ 0 := by
    rw [presentThetas_length]
    rw [presentCount_values.1]
    decide
  have hcomp : compositeTheta (facetScores E L bankC ansOneNeg) eiCfg = -3 :=
    compositeTheta_const _ eiCfg (-3) hall hlen
  rw [calculateResults_dichotomy,
    computeComposite_eq (facetScores E L bankC ansOneNeg) "E-I" eiCfg lookup_EI hlen,
    hcomp, preferenceFromTheta_neg eiCfg (-3) (by norm_num),
    pciFromTheta_neg_three, round2_neg_three]
  rfl

lemma presentThetas_ansTwoJP (E L : ℚ → ℚ)
    (hE : ∀ x y : ℚ, x < y → E x < E y) (hEpos : ∀ x, 0 < E x)
    (hL : ∀ x y : ℚ, 0 < x → x < y → L x < L y) :
    presentThetas (facetScores E L bankC ansTwoJP) jpCfg =
      [-3, -3, -3, 3, -3, -3, -3, -3] := by
  have h1 : facetScores E L bankC ansTwoJP "Systematic" = some (-3) := by
    rw [facetScores_eq_some E L bankC ansTwoJP "Systematic" (by decide) (by decide),
      findBest_ansTwoJP_other E L "Systematic" (by decide) (by decide) (by decide),
      round2_neg_three]
  have h2 : facetScores E L bankC ansTwoJP "Planful" = some (-3) := by
    rw [facetScores_eq_some E L bankC ansTwoJP "Planful" (by decide) (by decide),
      findBest_ansTwoJP_other E L "Planful" (by decide) (by decide) (by decide),
      round2_neg_three]
  have h3 : facetScores E L bankC ansTwoJP "Early Starting" = none :=
    facetScores_eq_none E L bankC ansTwoJP "Early Starting" (by decide)
  have h4 : facetScores E L bankC ansTwoJP "Scheduled" = some (-3) := by
    rw [facetScores_eq_some E L bankC ansTwoJP "Scheduled" (by decide) (by decide),
      findBest_ansTwoJP_other E L "Scheduled" (by decide) (by decide) (by decide),
      round2_neg_three]
  have h5 : facetScores E L bankC ansTwoJP "Methodical" = some 3 := by
    rw [facetScores_eq_some E L bankC ansTwoJP "Methodical" (by decide) (by decide),
      findBest_ansTwoJP_Meth E L hE hEpos hL, round2_three]
  have h6 : facetScores E L bankC ansTwoJP "Casual" = some (-3) := by
    rw [facetScores_eq_some E L bankC ansTwoJP "Casual" (by decide) (by decide),
      findBest_ansTwoJP_other E L "Casual" (by decide) (by decide) (by decide),
      round2_neg_three]
  have h7 : facetScores E L bankC ansTwoJP "Open-ended" = some (-3) := by
    rw [facetScores_eq_some E L bankC ansTwoJP "Open-ended" (by decide) (by decide),
      findBest_ansTwoJP_other E L "Open-ended" (by decide) (by decide) (by decide),
      round2_neg_three]
  have h8 : facetScores E L bankC ansTwoJP "Pressure Prompted" = some (-3) := by
    rw [facetScores_eq_some E L bankC ansTwoJP "Pressure Prompted" (by decide)
        (by decide),
      findBest_ansTwoJP_other E L "Pressure Prompted" (by decide) (by decide)
        (by decide),
      round2_neg_three]
  have h9 : facetScores E L bankC ansTwoJP "Spontaneous" = some (-3) := by
    rw [facetScores_eq_some E L bankC ansTwoJP "Spontaneous" (by decide) (by decide),
      findBest_ansTwoJP_Spon E L hE hEpos hL, round2_neg_three]
  have h10 : facetScores E L bankC ansTwoJP "Emergent" = none :=
    facetScores_eq_none E L bankC ansTwoJP "Emergent" (by decide)
  rw [presentThetas, jpCfg_facets]
  simp only [List.filterMap_cons, List.filterMap_nil,
    h1, h2, h3, h4, h5, h6, h7, h8, h9, h10]

lemma resTwoJP_eval (E L : ℚ → ℚ)
    (hE : ∀ x y : ℚ, x < y → E x < E y) (hEpos : ∀ x, 0 < E x)
    (hL : ∀ x y : ℚ, 0 < x → x < y → L x < L y) :
    (calculateResults E L bankC ansTwoJP).dichotomyResults "J-P" =
      some { preference := "P", pci := 23, pcc := "Clear",
             theta := -9/4, dichotomyName := "J-P" } := by
  have hlist := presentThetas_ansTwoJP E L hE hEpos hL
  have hlen : (presentThetas (facetScores E L bankC ansTwoJP) jpCfg).length ≠ 0 := by
    rw [hlist]
    decide
  have hcomp : compositeTheta (facetScores E L bankC ansTwoJP) jpCfg = -9/4 := by
    rw [compositeTheta, hlist, sumList_eq_sum]
    norm_num
  rw [calculateResults_dichotomy,
    computeComposite_eq (facetScores E L bankC ansTwoJP) "J-P" jpCfg lookup_JP hlen,
    hcomp, preferenceFromTheta_neg jpCfg (-9/4) (by norm_num),
    pciFromTheta_neg94, getPcc_23, round2_neg94]
  rfl

lemma nrGo_succ (E : ℚ → ℚ) (items : List (ℚ × ℚ × ℚ)) (fuel : ℕ) (theta : ℚ) :
    nrGo E items (fuel + 1) theta =
      if jsAbs (nrGradCurv E items theta).2 < 1 / 10000000 then theta
      else
        if jsAbs (clamp3 (theta - (nrGradCurv E items theta).1 /
            (nrGradCurv E items theta).2) - theta) < 1 / 10000 then
          clamp3 (theta - (nrGradCurv E items theta).1 /
            (nrGradCurv E items theta).2)
        else nrGo E items fuel (clamp3 (theta - (nrGradCurv E items theta).1 /
          (nrGradCurv E items theta).2)) := rfl

lemma gather_ansTwoJP :
    gatherDichotomyTriples bankC ansTwoJP "J-P" = [(2.5, 0.0, 1), (2.5, 0.0, 0)] :=
  rfl

/-- On the two answered J-P items (both with b = 0, equal a, opposite
    responses) the spec's Newton-Raphson estimator stops at theta = 0: the
    gradient at 0 vanishes, so the first update is 0 and the step tolerance
    halts the iteration. -/
lemma specNewton_ansTwoJP (E : ℚ → ℚ) (hE1 : E 0 = 1) :
    specNewtonTheta E [(2.5, 0.0, 1), (2.5, 0.0, 0)] = 0 := by
  have hprob : probability E 0 2.5 0.0 = 1/2 := by
    rw [probability]
    have harg : -(2.5 * ((0 : ℚ) - 0.0)) = 0 := by norm_num
    rw [harg, hE1]
    norm_num
  have hgc : nrGradCurv E [(2.5, 0.0, 1), (2.5, 0.0, 0)] 0 = (0, -25/8) := by
    rw [nrGradCurv, List.foldl_cons, List.foldl_cons, List.foldl_nil]
    dsimp only
    rw [hprob]
    norm_num
  rw [specNewtonTheta, show (20 : ℕ) = 19 + 1 from rfl, nrGo_succ, hgc]
  norm_num [jsAbs, clamp3]

lemma jsRound_mono {x y : ℚ} (h : x ≤ y) : jsRound x ≤ jsRound y :=
  Int.floor_mono (by linarith)

lemma pciFromTheta_ge_one (theta : ℚ) : 1 ≤ pciFromTheta theta := by
  rw [pciFromTheta, jsMaxI_eq_max]
  exact le_max_left _ _

lemma pciFromTheta_le_thirty (theta : ℚ) : pciFromTheta theta ≤ 30 := by
  rw [pciFromTheta, jsMaxI_eq_max]
  apply max_le (by norm_num)
  have hmin : jsMin (jsAbs theta) 3 ≤ 3 := by
    rw [jsMin]
    rcases le_or_lt (jsAbs theta) 3 with h | h
    · rw [if_pos h]; exact h
    · rw [if_neg (not_le.mpr h)]
  have harg : jsMin (jsAbs theta) 3 / 3 * 30 ≤ 30 := by
    have heq : jsMin (jsAbs theta) 3 / 3 * 30 = 10 * jsMin (jsAbs theta) 3 := by
      ring
    rw [heq]
    linarith
  have h30 : jsRound (30 : ℚ) = 30 := by
    rw [jsRound]
    norm_num
  calc jsRound (jsMin (jsAbs theta) 3 / 3 * 30) ≤ jsRound 30 := jsRound_mono harg
  _ = 30 := h30

lemma pciFromTheta_zero : pciFromTheta 0 = 1 := by
  rw [pciFromTheta, jsAbs, if_neg (by norm_num : ¬ (0:ℚ) < 0),
    jsMin, if_pos (by norm_num : (0:ℚ) ≤ 3)]
  have h0 : (0 : ℚ) / 3 * 30 = 0 := by norm_num
  rw [h0]
  have hr : jsRound (0 : ℚ) = 0 := by
    rw [jsRound]
    norm_num
  rw [hr]
  rfl

/-- For a theta within [-3, 3] (as all composite thetas are), the upper clamp
    `Math.min(|θ|, 3)` is the identity and the PCI is
    `max 1 (round (|θ| / 3 * 30))`. -/
lemma pciFromTheta_formula (theta : ℚ) (h1 : -3 ≤ theta) (h2 : theta ≤ 3) :
    pciFromTheta theta = max 1 (round (|theta| / 3 * 30)) := by
  rw [pciFromTheta, jsMaxI_eq_max, jsRound_eq_round, jsAbs_eq_abs, jsMin_eq_min]
  have habs : |theta| ≤ 3 := abs_le.mpr ⟨h1, h2⟩
  rw [min_eq_left habs]

lemma lookup_SN : lookupConfig "S-N" = some snCfg := by decide

lemma lookup_TF : lookupConfig "T-F" = some tfCfg := by decide

lemma computeComposite_none (s : String → Option ℚ) (name : String)
    (cfg : DichotomyConfig) (hlook : lookupConfig name = some cfg)
    (hz : (presentThetas s cfg).length = 0) :
    computeCompositeDichotomyScores s name = none := by
  rw [computeCompositeDichotomyScores, hlook]
  exact if_pos hz

lemma filterMap_congr_local (s s' : String → Option ℚ) (l : List String)
    (h : ∀ f ∈ l, s f = s' f) : l.filterMap s = l.filterMap s' := by
  induction l with
  | nil => rfl
  | cons f t ih =>
    rw [List.filterMap_cons, List.filterMap_cons, h f (List.mem_cons_self _ _),
      ih (fun g hg => h g (List.mem_cons_of_mem _ hg))]

lemma compositeTheta_congr (s s' : String → Option ℚ) (cfg : DichotomyConfig)
    (h : presentThetas s cfg = presentThetas s' cfg) :
    compositeTheta s cfg = compositeTheta s' cfg := by
  rw [compositeTheta, compositeTheta, h]

/-- Every question mapped to a facet of a configured dichotomy carries that
    dichotomy's label in the item table. -/
lemma facet_dich_consistent :
    ∀ pair ∈ DICHOTOMY_CONFIG, ∀ f ∈ pair.2.facets,
      ∀ q ∈ facetToQuestionMap f, (itemAt q).dichotomy = pair.1 := by decide

/-- The discrimination parameter of every item of the table is positive. -/
lemma itemsList_a_pos : ∀ p ∈ itemParametersList, 0 < p.a := by
  intro p hp
  fin_cases hp <;> norm_num

lemma itemParametersList_length : itemParametersList.length = 93 := by decide

lemma itemAt_mem (q : ℕ) (hq : q < 93) : itemAt q ∈ itemParametersList := by
  rw [itemAt, List.getD_eq_getElem itemParametersList default
    (by rw [itemParametersList_length]; exact hq)]
  exact List.getElem_mem _

lemma itemAt_a_pos (q : ℕ) (hq : q < 93) : 0 < (itemAt q).a :=
  itemsList_a_pos (itemAt q) (itemAt_mem q hq)

lemma linExp_mono : ∀ x y : ℚ, x < y → linExp x < linExp y := linExp_strictMono

lemma linExp_zero : linExp 0 = 1 := by
  rw [linExp, if_pos (le_refl 0)]
  norm_num

/-- C1: on an AnswerSet in which every item is omitted the orchestrator does
    not yield theta = 0 / preference = tie-breaker / pci = 1 / pcc = "Slight"
    as the specification states; instead every dichotomy reports
    theta = -3.0, pci = 30, pcc = "Very Clear", and the letter equals the
    second pole (which merely happens to coincide with the tie-breaker
    letter).  This contradicts the repository's own test expectation
    ("Should result in INFP ... Slight Clarity"), so the code, not the
    claim, is at fault. -/
theorem C1_empty_all_dichotomies (E L : ℚ → ℚ) (bank : ℕ → Question) :
    (calculateResults E L bank ansNone).dichotomyResults "E-I" =
      some { preference := "I", pci := 30, pcc := "Very Clear",
             theta := -3, dichotomyName := "E-I" } ∧
    (calculateResults E L bank ansNone).dichotomyResults "S-N" =
      some { preference := "N", pci := 30, pcc := "Very Clear",
             theta := -3, dichotomyName := "S-N" } ∧
    (calculateResults E L bank ansNone).dichotomyResults "T-F" =
      some { preference := "F", pci := 30, pcc := "Very Clear",
             theta := -3, dichotomyName := "T-F" } ∧
    (calculateResults E L bank ansNone).dichotomyResults "J-P" =
      some { preference := "P", pci := 30, pcc := "Very Clear",
             theta := -3, dichotomyName := "J-P" } := by
  refine ⟨?_, ?_, ?_, ?_⟩
  · exact resNone_eval E L bank "E-I" eiCfg lookup_EI
      (by rw [presentCount_values.1]; decide)
  · exact resNone_eval E L bank "S-N" snCfg lookup_SN
      (by rw [presentCount_values.2.1]; decide)
  · exact resNone_eval E L bank "T-F" tfCfg lookup_TF
      (by rw [presentCount_values.2.2.1]; decide)
  · exact resNone_eval E L bank "J-P" jpCfg lookup_JP
      (by rw [presentCount_values.2.2.2]; decide)

/-- C2 counterexample: with exactly two J-P items answered (question 90
    positive-pole, question 93 negative-pole, both items with b = 0 and equal
    a), the joint-likelihood Newton-Raphson estimator of the specification
    returns theta = 0 for J-P, but the code reports theta = -9/4: the code
    estimates per facet by a grid scan and averages, and facets with no
    answered items contribute -3.0 each. -/
theorem C2_counterexample :
    (calculateResults linExp linLog bankC ansTwoJP).dichotomyResults "J-P" =
      some { preference := "P", pci := 23, pcc := "Clear",
             theta := -9/4, dichotomyName := "J-P" } ∧
    specNewtonTheta linExp (gatherDichotomyTriples bankC ansTwoJP "J-P") = 0 ∧
    (-9/4 : ℚ) ≠ 0 := by
  refine ⟨resTwoJP_eval linExp linLog linExp_mono linExp_pos linLog_strictMonoOn,
    ?_, by norm_num⟩
  rw [gather_ansTwoJP]
  exact specNewton_ansTwoJP linExp linExp_zero

/-- C2 amended: the reported dichotomy theta is not a per-dichotomy
    Newton-Raphson MLE; the code scans, per facet, the 121-point grid
    -3.0, -2.95, ..., 3.0 and keeps the first grid point strictly maximising
    that facet's log-likelihood over its answered items, and the dichotomy's
    reported theta is the two-decimal rounding of the mean of the present
    facet thetas. -/
theorem C2_amended_gridscan (E L : ℚ → ℚ) (bank : ℕ → Question) (A : AnswerSet)
    (name : String) (cfg : DichotomyConfig) (r : DichotomyResult) (f : String)
    (hlook : lookupConfig name = some cfg)
    (hr : (calculateResults E L bank A).dichotomyResults name = some r)
    (hf : f ∈ cfg.facets) (hne : facetToQuestionMap f ≠ []) :
    (findBestThetaForFacet E L bank A f ∈ thetaGrid ∧
      (∀ x ∈ thetaGrid,
        facetLogLik E L bank A (facetToQuestionMap f) x ≤
          facetLogLik E L bank A (facetToQuestionMap f)
            (findBestThetaForFacet E L bank A f)) ∧
      (∀ x ∈ thetaGrid,
        facetLogLik E L bank A (facetToQuestionMap f) x =
          facetLogLik E L bank A (facetToQuestionMap f)
            (findBestThetaForFacet E L bank A f) →
        findBestThetaForFacet E L bank A f ≤ x)) ∧
    r.theta = round2 (compositeTheta (facetScores E L bank A) cfg) := by
  constructor
  · rw [findBestThetaForFacet_eq E L bank A f hne]
    exact ⟨bestThetaOf_mem _ thetaGrid thetaGrid_ne_nil,
      le_bestThetaOf _ thetaGrid,
      bestThetaOf_least _ thetaGrid thetaGrid_pairwise⟩
  · rw [calculateResults_dichotomy] at hr
    rcases computeComposite_some _ name r hr with ⟨cfg', hlook', _, hrec⟩
    rw [hlook] at hlook'
    have hcfg : cfg = cfg' := Option.some_injective _ hlook'
    rw [hrec, ← hcfg]

/-- C2 amended, witnessed at the two-answer J-P input and the facet
    "Methodical". -/
theorem C2_amended_gridscan_witness :
    lookupConfig "J-P" = some jpCfg ∧
    (calculateResults linExp linLog bankC ansTwoJP).dichotomyResults "J-P" =
      some { preference := "P", pci := 23, pcc := "Clear",
             theta := -9/4, dichotomyName := "J-P" } ∧
    "Methodical" ∈ jpCfg.facets ∧ facetToQuestionMap "Methodical" ≠ [] ∧
    ((findBestThetaForFacet linExp linLog bankC ansTwoJP "Methodical" ∈ thetaGrid ∧
      (∀ x ∈ thetaGrid,
        facetLogLik linExp linLog bankC ansTwoJP
            (facetToQuestionMap "Methodical") x ≤
          facetLogLik linExp linLog bankC ansTwoJP
            (facetToQuestionMap "Methodical")
            (findBestThetaForFacet linExp linLog bankC ansTwoJP "Methodical")) ∧
      (∀ x ∈ thetaGrid,
        facetLogLik linExp linLog bankC ansTwoJP
            (facetToQuestionMap "Methodical") x =
          facetLogLik linExp linLog bankC ansTwoJP
            (facetToQuestionMap "Methodical")
            (findBestThetaForFacet linExp linLog bankC ansTwoJP "Methodical") →
        findBestThetaForFacet linExp linLog bankC ansTwoJP "Methodical" ≤ x)) ∧
    ({ preference := "P", pci := 23, pcc := "Clear",
       theta := -9/4, dichotomyName := "J-P" } : DichotomyResult).theta =
      round2 (compositeTheta (facetScores linExp linLog bankC ansTwoJP) jpCfg)) :=
  ⟨lookup_JP,
   resTwoJP_eval linExp linLog linExp_mono linExp_pos linLog_strictMonoOn,
   by decide, by decide,
   C2_amended_gridscan linExp linLog bankC ansTwoJP "J-P" jpCfg _ "Methodical"
     lookup_JP
     (resTwoJP_eval linExp linLog linExp_mono linExp_pos linLog_strictMonoOn)
     (by decide) (by decide)⟩

/-- C3 counterexample: at composite theta 1/200 (inside (0, 0.01]) the code
    reports the tie-breaker letter "I" for E-I, not the positive pole "E"
    that an exact-zero tie rule would dictate for a positive theta. -/
theorem C3_counterexample :
    preferenceFromTheta eiCfg (1/200) = "I" ∧ (0 : ℚ) < 1/200 ∧
      eiCfg.pole1 = "E" ∧ ("I" : String) ≠ "E" := by
  refine ⟨?_, by norm_num, rfl, by decide⟩
  rw [preferenceFromTheta_band eiCfg (1/200) (by norm_num) (by norm_num)]
  rfl

lemma preference_characterisation (name : String) (cfg : DichotomyConfig)
    (theta : ℚ) (hlook : lookupConfig name = some cfg) :
    (preferenceFromTheta cfg theta = cfg.pole1 ↔ 1/100 < theta) ∧
    (theta < -(1/100) → preferenceFromTheta cfg theta = cfg.pole2) ∧
    (-(1/100) ≤ theta → theta ≤ 1/100 →
      preferenceFromTheta cfg theta = cfg.tieBreaker) ∧
    cfg.tieBreaker = cfg.pole2 := by
  have hmem : cfg ∈ DICHOTOMY_CONFIG.map Prod.snd := by
    have hp := lookupConfig_pair name cfg hlook
    exact List.mem_map.mpr ⟨(name, cfg), hp, rfl⟩
  have hcl := config_letters cfg hmem
  refine ⟨⟨?_, fun h => preferenceFromTheta_pos cfg theta h⟩,
    preferenceFromTheta_neg cfg theta,
    preferenceFromTheta_band cfg theta, hcl.1⟩
  intro h
  by_contra hcon
  push_neg at hcon
  rcases lt_or_le theta (-(1/100)) with h2 | h2
  · rw [preferenceFromTheta_neg cfg theta h2] at h
    exact hcl.2 h.symm
  · rw [preferenceFromTheta_band cfg theta h2 hcon, hcl.1] at h
    exact hcl.2 h.symm

/-- C3 amended: the preference branch uses a ±0.01 dead band, not an exact
    zero test: the positive pole is reported exactly when theta > 0.01, the
    tie-breaker exactly when theta ≤ 0.01 (the tie-breaker letter coincides
    with the negative pole), and any theta < -0.01 reports the negative
    pole. -/
theorem C3_amended_deadband (name : String) (cfg : DichotomyConfig) (theta : ℚ)
    (hlook : lookupConfig name = some cfg) :
    (preferenceFromTheta cfg theta = cfg.pole1 ↔ 1/100 < theta) ∧
    (theta < -(1/100) → preferenceFromTheta cfg theta = cfg.pole2) ∧
    (-(1/100) ≤ theta → theta ≤ 1/100 →
      preferenceFromTheta cfg theta = cfg.tieBreaker) ∧
    cfg.tieBreaker = cfg.pole2 :=
  preference_characterisation name cfg theta hlook

/-- C3 amended, witnessed for E-I at theta = 1. -/
theorem C3_amended_deadband_witness :
    lookupConfig "E-I" = some eiCfg ∧
    ((preferenceFromTheta eiCfg 1 = eiCfg.pole1 ↔ 1/100 < (1 : ℚ)) ∧
     ((1 : ℚ) < -(1/100) → preferenceFromTheta eiCfg 1 = eiCfg.pole2) ∧
     (-(1/100) ≤ (1 : ℚ) → (1 : ℚ) ≤ 1/100 →
       preferenceFromTheta eiCfg 1 = eiCfg.tieBreaker) ∧
     eiCfg.tieBreaker = eiCfg.pole2) :=
  ⟨lookup_EI, C3_amended_deadband "E-I" eiCfg 1 lookup_EI⟩

/-- C4: for every reported dichotomy result the PCI equals 1 when the
    composite theta is 0, equals max 1 (round (|θ| / 3 × 30)) in general
    (the code's Math.min upper clamp is the identity because |θ| ≤ 3), and
    the raw rounded value never exceeds 30, so no upper clamp is needed. -/
theorem C4_pci_formula (E L : ℚ → ℚ) (bank : ℕ → Question) (A : AnswerSet)
    (name : String) (cfg : DichotomyConfig) (r : DichotomyResult)
    (hlook : lookupConfig name = some cfg)
    (hr : (calculateResults E L bank A).dichotomyResults name = some r) :
    (compositeTheta (facetScores E L bank A) cfg = 0 → r.pci = 1) ∧
    r.pci = max 1 (round (|compositeTheta (facetScores E L bank A) cfg| / 3 * 30)) ∧
    round (|compositeTheta (facetScores E L bank A) cfg| / 3 * 30) ≤ 30 := by
  rw [calculateResults_dichotomy] at hr
  rcases computeComposite_some _ name r hr with ⟨cfg', hlook', _, hrec⟩
  rw [hlook] at hlook'
  have hcfg : cfg = cfg' := Option.some_injective _ hlook'
  subst hcfg
  have hb := compositeTheta_bounds E L bank A cfg
  have hpci : r.pci = pciFromTheta (compositeTheta (facetScores E L bank A) cfg) := by
    rw [hrec]
  refine ⟨?_, ?_, ?_⟩
  · intro h0
    rw [hpci, h0, pciFromTheta_zero]
  · rw [hpci, pciFromTheta_formula _ hb.1 hb.2]
  · have habs : |compositeTheta (facetScores E L bank A) cfg| ≤ 3 :=
      abs_le.mpr hb
    have harg : |compositeTheta (facetScores E L bank A) cfg| / 3 * 30 ≤ 30 := by
      have heq : |compositeTheta (facetScores E L bank A) cfg| / 3 * 30 =
          10 * |compositeTheta (facetScores E L bank A) cfg| := by ring
      rw [heq]
      linarith
    have h30 : round (30 : ℚ) = 30 := by
      rw [round_eq]
      norm_num
    calc round (|compositeTheta (facetScores E L bank A) cfg| / 3 * 30) ≤
        round (30 : ℚ) := by
          rw [round_eq, round_eq]
          exact Int.floor_mono (by linarith)
    _ = 30 := h30

/-- C4 witness at the all-omitted input for E-I. -/
theorem C4_pci_formula_witness :
    lookupConfig "E-I" = some eiCfg ∧
    (calculateResults linExp linLog bankC ansNone).dichotomyResults "E-I" =
      some { preference := "I", pci := 30, pcc := "Very Clear",
             theta := -3, dichotomyName := "E-I" } ∧
    ((compositeTheta (facetScores linExp linLog bankC ansNone) eiCfg = 0 →
        ({ preference := "I", pci := 30, pcc := "Very Clear",
           theta := -3, dichotomyName := "E-I" } : DichotomyResult).pci = 1) ∧
     ({ preference := "I", pci := 30, pcc := "Very Clear",
        theta := -3, dichotomyName := "E-I" } : DichotomyResult).pci =
       max 1 (round
         (|compositeTheta (facetScores linExp linLog bankC ansNone) eiCfg| / 3 * 30)) ∧
     round (|compositeTheta (facetScores linExp linLog bankC ansNone) eiCfg| /
       3 * 30) ≤ 30) :=
  ⟨lookup_EI,
   resNone_eval linExp linLog bankC "E-I" eiCfg lookup_EI
     (by rw [presentCount_values.1]; decide),
   C4_pci_formula linExp linLog bankC ansNone "E-I" eiCfg _ lookup_EI
     (resNone_eval linExp linLog bankC "E-I" eiCfg lookup_EI
       (by rw [presentCount_values.1]; decide))⟩

/-- C5: the PCC label boundaries are lower-bound inclusive: "Very Clear" iff
    pci ≥ 26, "Clear" iff 16 ≤ pci ≤ 25, "Moderate" iff 6 ≤ pci ≤ 15,
    "Slight" iff pci ≤ 5 (within the attainable range 1..30). -/
theorem C5_pcc_boundaries (p : ℤ) (h1 : 1 ≤ p) (h2 : p ≤ 30) :
    (getPccCategory p = "Very Clear" ↔ 26 ≤ p) ∧
    (getPccCategory p = "Clear" ↔ 16 ≤ p ∧ p ≤ 25) ∧
    (getPccCategory p = "Moderate" ↔ 6 ≤ p ∧ p ≤ 15) ∧
    (getPccCategory p = "Slight" ↔ p ≤ 5) := by
  interval_cases p <;> decide

/-- C5 witness: the six boundary values named by the claim. -/
theorem C5_pcc_boundaries_witness :
    getPccCategory 6 = "Moderate" ∧ getPccCategory 16 = "Clear" ∧
    getPccCategory 26 = "Very Clear" ∧ getPccCategory 5 = "Slight" ∧
    getPccCategory 15 = "Moderate" ∧ getPccCategory 25 = "Clear" :=
  ⟨((C5_pcc_boundaries 6 (by decide) (by decide)).2.2.1).mpr (by decide),
   ((C5_pcc_boundaries 16 (by decide) (by decide)).2.1).mpr (by decide),
   ((C5_pcc_boundaries 26 (by decide) (by decide)).1).mpr (by decide),
   ((C5_pcc_boundaries 5 (by decide) (by decide)).2.2.2).mpr (by decide),
   ((C5_pcc_boundaries 15 (by decide) (by decide)).2.2.1).mpr (by decide),
   ((C5_pcc_boundaries 25 (by decide) (by decide)).2.1).mpr (by decide)⟩

/-- C8: every reported dichotomy result satisfies |theta| ≤ 3.0 and
    1 ≤ pci ≤ 30. -/
theorem C8_range_bounds (E L : ℚ → ℚ) (bank : ℕ → Question) (A : AnswerSet)
    (name : String) (r : DichotomyResult)
    (hr : (calculateResults E L bank A).dichotomyResults name = some r) :
    -3 ≤ r.theta ∧ r.theta ≤ 3 ∧ 1 ≤ r.pci ∧ r.pci ≤ 30 := by
  rw [calculateResults_dichotomy] at hr
  rcases computeComposite_some _ name r hr with ⟨cfg, _, _, hrec⟩
  have hb := compositeTheta_bounds E L bank A cfg
  rw [hrec]
  exact ⟨round2_ge_of_ge round2_neg_three hb.1,
    round2_le_of_le round2_three hb.2,
    pciFromTheta_ge_one _, pciFromTheta_le_thirty _⟩

/-- C8 witness at the all-omitted input for T-F. -/
theorem C8_range_bounds_witness :
    (calculateResults linExp linLog bankC ansNone).dichotomyResults "T-F" =
      some { preference := "F", pci := 30, pcc := "Very Clear",
             theta := -3, dichotomyName := "T-F" } ∧
    (-3 ≤ ({ preference := "F", pci := 30, pcc := "Very Clear",
             theta := -3, dichotomyName := "T-F" } : DichotomyResult).theta ∧
     ({ preference := "F", pci := 30, pcc := "Very Clear",
        theta := -3, dichotomyName := "T-F" } : DichotomyResult).theta ≤ 3 ∧
     1 ≤ ({ preference := "F", pci := 30, pcc := "Very Clear",
            theta := -3, dichotomyName := "T-F" } : DichotomyResult).pci ∧
     ({ preference := "F", pci := 30, pcc := "Very Clear",
        theta := -3, dichotomyName := "T-F" } : DichotomyResult).pci ≤ 30) :=
  ⟨resNone_eval linExp linLog bankC "T-F" tfCfg lookup_TF
     (by rw [presentCount_values.2.2.1]; decide),
   C8_range_bounds linExp linLog bankC ansNone "T-F" _
     (resNone_eval linExp linLog bankC "T-F" tfCfg lookup_TF
       (by rw [presentCount_values.2.2.1]; decide))⟩

/-- C9: only a dichotomy's own member items influence its result: two
    AnswerSets agreeing on every question whose item carries the dichotomy's
    label produce identical results for that dichotomy. -/
theorem C9_omission_invariance (E L : ℚ → ℚ) (bank : ℕ → Question)
    (A A' : AnswerSet) (name : String)
    (hagree : ∀ q, q < 93 → (itemAt q).dichotomy = name →
      A (q + 1) = A' (q + 1)) :
    (calculateResults E L bank A).dichotomyResults name =
      (calculateResults E L bank A').dichotomyResults name := by
  rw [calculateResults_dichotomy, calculateResults_dichotomy]
  cases hl : lookupConfig name with
  | none =>
    rw [computeCompositeDichotomyScores, hl, computeCompositeDichotomyScores, hl]
  | some cfg =>
    have hpair := lookupConfig_pair name cfg hl
    have hsc : ∀ f ∈ cfg.facets,
        facetScores E L bank A f = facetScores E L bank A' f := by
      intro f hf
      apply facetScores_congr
      intro q hq
      have hq93 : q < 93 := (mem_facetToQuestionMap.mp hq).1
      have hdich : (itemAt q).dichotomy = name :=
        facet_dich_consistent (name, cfg) hpair f hf q hq
      exact hagree q hq93 hdich
    have hpres : presentThetas (facetScores E L bank A) cfg =
        presentThetas (facetScores E L bank A') cfg := by
      rw [presentThetas, presentThetas]
      exact filterMap_congr_local _ _ cfg.facets hsc
    by_cases hlen : (presentThetas (facetScores E L bank A) cfg).length = 0
    · rw [computeComposite_none _ name cfg hl hlen,
        computeComposite_none _ name cfg hl (by rw [← hpres]; exact hlen)]
    · rw [computeComposite_eq _ name cfg hl hlen,
        computeComposite_eq _ name cfg hl (by rw [← hpres]; exact hlen),
        compositeTheta_congr _ _ cfg hpres]

/-- C9 witness: adding a J-P answer (question 1) to the empty AnswerSet does
    not change the E-I result. -/
theorem C9_omission_invariance_witness :
    (∀ q, q < 93 → (itemAt q).dichotomy = "E-I" →
      ansNone (q + 1) = ansOneJP1 (q + 1)) ∧
    (calculateResults linExp linLog bankC ansNone).dichotomyResults "E-I" =
      (calculateResults linExp linLog bankC ansOneJP1).dichotomyResults "E-I" :=
  ⟨by decide,
   C9_omission_invariance linExp linLog bankC ansNone ansOneJP1 "E-I" (by decide)⟩

/-- C10: the preference reported for a dichotomy is computed with a ±0.01
    dead band on the composite theta: thetas in [-0.01, 0.01] yield the
    tie-breaker, the positive pole appears exactly when theta > 0.01, and
    any theta < -0.01 yields the negative pole. -/
theorem C10_pipeline_deadband (E L : ℚ → ℚ) (bank : ℕ → Question) (A : AnswerSet)
    (name : String) (cfg : DichotomyConfig) (r : DichotomyResult)
    (hlook : lookupConfig name = some cfg)
    (hr : (calculateResults E L bank A).dichotomyResults name = some r) :
    (-(1/100) ≤ compositeTheta (facetScores E L bank A) cfg →
      compositeTheta (facetScores E L bank A) cfg ≤ 1/100 →
      r.preference = cfg.tieBreaker) ∧
    (r.preference = cfg.pole1 ↔
      1/100 < compositeTheta (facetScores E L bank A) cfg) ∧
    (compositeTheta (facetScores E L bank A) cfg < -(1/100) →
      r.preference = cfg.pole2) := by
  rw [calculateResults_dichotomy] at hr
  rcases computeComposite_some _ name r hr with ⟨cfg', hlook', _, hrec⟩
  rw [hlook] at hlook'
  have hcfg : cfg = cfg' := Option.some_injective _ hlook'
  subst hcfg
  have hchar := preference_characterisation name cfg
    (compositeTheta (facetScores E L bank A) cfg) hlook
  have hpref : r.preference =
      preferenceFromTheta cfg (compositeTheta (facetScores E L bank A) cfg) := by
    rw [hrec]
  refine ⟨?_, ?_, ?_⟩
  · intro hlo hhi
    rw [hpref]
    exact hchar.2.2.1 hlo hhi
  · rw [hpref]
    exact hchar.1
  · intro hneg
    rw [hpref]
    exact hchar.2.1 hneg

/-- C10 witness at the two-answer J-P input. -/
theorem C10_pipeline_deadband_witness :
    lookupConfig "J-P" = some jpCfg ∧
    (calculateResults linExp linLog bankC ansTwoJP).dichotomyResults "J-P" =
      some { preference := "P", pci := 23, pcc := "Clear",
             theta := -9/4, dichotomyName := "J-P" } ∧
    ((-(1/100) ≤ compositeTheta (facetScores linExp linLog bankC ansTwoJP) jpCfg →
      compositeTheta (facetScores linExp linLog bankC ansTwoJP) jpCfg ≤ 1/100 →
      ({ preference := "P", pci := 23, pcc := "Clear",
         theta := -9/4, dichotomyName := "J-P" } : DichotomyResult).preference =
        jpCfg.tieBreaker) ∧
     (({ preference := "P", pci := 23, pcc := "Clear",
         theta := -9/4, dichotomyName := "J-P" } : DichotomyResult).preference =
        jpCfg.pole1 ↔
      1/100 < compositeTheta (facetScores linExp linLog bankC ansTwoJP) jpCfg) ∧
     (compositeTheta (facetScores linExp linLog bankC ansTwoJP) jpCfg < -(1/100) →
      ({ preference := "P", pci := 23, pcc := "Clear",
         theta := -9/4, dichotomyName := "J-P" } : DichotomyResult).preference =
        jpCfg.pole2)) :=
  ⟨lookup_JP,
   resTwoJP_eval linExp linLog linExp_mono linExp_pos linLog_strictMonoOn,
   C10_pipeline_deadband linExp linLog bankC ansTwoJP "J-P" jpCfg _ lookup_JP
     (resTwoJP_eval linExp linLog linExp_mono linExp_pos linLog_strictMonoOn)⟩

/-- C6: changing exactly one answered item of a dichotomy from the
    negative-pole option to the positive-pole option, all other answers
    unchanged, never decreases that dichotomy's reported theta.  `E` and `L`
    stand for `Math.exp` and `Math.log` (strictly monotone, `exp` positive),
    and the item's discrimination is positive (an invariant of the table,
    `itemAt_a_pos`). -/
theorem C6_monotonicity (E L : ℚ → ℚ) (bank : ℕ → Question) (A A' : AnswerSet)
    (q : ℕ) (c c' : Choice) (r r' : DichotomyResult)
    (hE : ∀ x y : ℚ, x < y → E x < E y) (hEpos : ∀ x, 0 < E x)
    (hL : ∀ x y : ℚ, 0 < x → x < y → L x < L y)
    (hq : q < 93)
    (hc : A (q + 1) = some c) (hc' : A' (q + 1) = some c')
    (hneg : ((bank q).optionOf c).pole ≠ (configOfD (itemAt q).dichotomy).pole1)
    (hpos : ((bank q).optionOf c').pole = (configOfD (itemAt q).dichotomy).pole1)
    (hagree : ∀ n, n ≠ q + 1 → A n = A' n)
    (hr : (calculateResults E L bank A).dichotomyResults (itemAt q).dichotomy =
      some r)
    (hr' : (calculateResults E L bank A').dichotomyResults (itemAt q).dichotomy =
      some r') :
    r.theta ≤ r'.theta := by
  have key : ∀ f : String,
      findBestThetaForFacet E L bank A f ≤ findBestThetaForFacet E L bank A' f := by
    intro f
    by_cases hf : (itemAt q).primaryFacet = f
    · exact findBestThetaForFacet_single_flip E L bank A A' f q c c'
        hE hEpos hL (mem_facetToQuestionMap.mpr ⟨hq, hf⟩) (itemAt_a_pos q hq)
        hc hc' hneg hpos hagree
    · apply le_of_eq
      apply findBestThetaForFacet_congr
      intro qi hqi
      have hqf : (itemAt qi).primaryFacet = f := (mem_facetToQuestionMap.mp hqi).2
      have hqiq : qi ≠ q := by
        intro he
        subst he
        exact hf hqf
      exact hagree (qi + 1) (by omega)
  have hiff : ∀ f,
      (facetScores E L bank A f).isSome = (facetScores E L bank A' f).isSome := by
    intro f
    by_cases hcond : f ∈ ALL_FACETS ∧ facetToQuestionMap f ≠ []
    · rw [facetScores_eq_some E L bank A f hcond.1 hcond.2,
        facetScores_eq_some E L bank A' f hcond.1 hcond.2,
        Option.isSome_some, Option.isSome_some]
    · rw [facetScores_eq_none E L bank A f hcond,
        facetScores_eq_none E L bank A' f hcond]
  have hle : ∀ f, ∀ x x', facetScores E L bank A f = some x →
      facetScores E L bank A' f = some x' → x ≤ x' := by
    intro f x x' hx hx'
    rw [facetScores] at hx hx'
    by_cases hcond : f ∈ ALL_FACETS ∧ facetToQuestionMap f ≠ []
    · rw [if_pos hcond] at hx hx'
      have h1 : x = round2 (findBestThetaForFacet E L bank A f) :=
        (Option.some_injective _ hx).symm
      have h2 : x' = round2 (findBestThetaForFacet E L bank A' f) :=
        (Option.some_injective _ hx').symm
      rw [h1, h2]
      exact round2_mono (key f)
    · rw [if_neg hcond] at hx
      cases hx
  rw [calculateResults_dichotomy] at hr hr'
  rcases computeComposite_some _ _ r hr with ⟨cfg, hlook, _, hrec⟩
  rcases computeComposite_some _ _ r' hr' with ⟨cfg', hlook', _, hrec'⟩
  rw [hlook] at hlook'
  have hcfg : cfg = cfg' := Option.some_injective _ hlook'
  subst hcfg
  have hfm := filterMap_mono (facetScores E L bank A) (facetScores E L bank A')
    cfg.facets (fun f _ => hiff f) (fun f _ => hle f)
  have hcomp : compositeTheta (facetScores E L bank A) cfg ≤
      compositeTheta (facetScores E L bank A') cfg := by
    rw [compositeTheta, compositeTheta, sumList_eq_sum, sumList_eq_sum]
    have hlen : (presentThetas (facetScores E L bank A) cfg).length =
        (presentThetas (facetScores E L bank A') cfg).length := hfm.1
    have hsum : (presentThetas (facetScores E L bank A) cfg).sum ≤
        (presentThetas (facetScores E L bank A') cfg).sum := hfm.2
    rw [← hlen]
    rcases Nat.eq_zero_or_pos
      (presentThetas (facetScores E L bank A) cfg).length with h0 | hp
    · rw [h0]
      norm_num
    · have hlenq : (0 : ℚ) <
          ((presentThetas (facetScores E L bank A) cfg).length : ℚ) := by
        exact_mod_cast hp
      exact div_le_div_of_nonneg_right hsum (le_of_lt hlenq)
  rw [hrec, hrec']
  exact round2_mono hcomp

/-- C6 witness: flipping the single answered E-I question 10 from the
    negative-pole option to the positive-pole option raises the reported
    E-I theta from -3.0 to -2.25. -/
theorem C6_monotonicity_witness :
    ansOneNeg 10 = some Choice.B ∧ ansOnePos 10 = some Choice.A ∧
    ((bankC 9).optionOf Choice.B).pole ≠
      (configOfD (itemAt 9).dichotomy).pole1 ∧
    ((bankC 9).optionOf Choice.A).pole =
      (configOfD (itemAt 9).dichotomy).pole1 ∧
    ({ preference := "I", pci := 30, pcc := "Very Clear",
       theta := -3, dichotomyName := "E-I" } : DichotomyResult).theta ≤
      ({ preference := "I", pci := 23, pcc := "Clear",
         theta := -9/4, dichotomyName := "E-I" } : DichotomyResult).theta :=
  ⟨by decide, by decide, by decide, by decide,
   C6_monotonicity linExp linLog bankC ansOneNeg ansOnePos 9 Choice.B Choice.A
     _ _ linExp_mono linExp_pos linLog_strictMonoOn (by norm_num)
     (by decide) (by decide) (by decide) (by decide)
     (fun n hn => by rw [ansOneNeg, ansOnePos, if_neg hn, if_neg hn])
     (resOneNeg_eval linExp linLog linExp_mono linExp_pos linLog_strictMonoOn)
     (resOnePos_eval linExp linLog linExp_mono linExp_pos linLog_strictMonoOn)⟩

/-- C7 counterexample: answering only E-I question 10 positively yields
    theta = -9/4 for E-I, and flipping that (single) answered item to the
    negative pole yields theta = -3.0 — not the negation 9/4 (the gap is
    21/4, far beyond numerical tolerance) — and the reported preference is
    "I" in both runs, so it does not flip to the opposite pole. -/
theorem C7_counterexample :
    (calculateResults linExp linLog bankC ansOnePos).dichotomyResults "E-I" =
      some { preference := "I", pci := 23, pcc := "Clear",
             theta := -9/4, dichotomyName := "E-I" } ∧
    (calculateResults linExp linLog bankC ansOneNeg).dichotomyResults "E-I" =
      some { preference := "I", pci := 30, pcc := "Very Clear",
             theta := -3, dichotomyName := "E-I" } ∧
    ((-3 : ℚ) ≠ -(-9/4)) ∧ |(-3 : ℚ) - -(-9/4)| = 21/4 :=
  ⟨resOnePos_eval linExp linLog linExp_mono linExp_pos linLog_strictMonoOn,
   resOneNeg_eval linExp linLog linExp_mono linExp_pos linLog_strictMonoOn,
   by norm_num, by norm_num⟩

/-- C7 amended: what survives of the symmetry claim at facet level: if every
    answered item of a facet carries the positive-pole option (at least one
    answered), the facet theta is +3.0 and after flipping every answered
    item to the negative-pole option it is -3.0, i.e. it negates.  The
    composite dichotomy theta need not negate, because facets with no
    answered items contribute -3.0 in both runs, and the preference then
    need not flip (see the counterexample). -/
theorem C7_amended_flip (E L : ℚ → ℚ) (bank : ℕ → Question) (A A' : AnswerSet)
    (f : String)
    (hE : ∀ x y : ℚ, x < y → E x < E y) (hEpos : ∀ x, 0 < E x)
    (hL : ∀ x y : ℚ, 0 < x → x < y → L x < L y)
    (hne : facetToQuestionMap f ≠ [])
    (ha : ∀ q ∈ facetToQuestionMap f, 0 < (itemAt q).a)
    (hansA : ∀ q ∈ facetToQuestionMap f, ∀ c, A (q + 1) = some c →
      ((bank q).optionOf c).pole = (configOfD (itemAt q).dichotomy).pole1)
    (hsome : ∃ q ∈ facetToQuestionMap f, A (q + 1) ≠ none)
    (hansA' : ∀ q ∈ facetToQuestionMap f, ∀ c, A' (q + 1) = some c →
      ((bank q).optionOf c).pole ≠ (configOfD (itemAt q).dichotomy).pole1) :
    findBestThetaForFacet E L bank A f = 3 ∧
    findBestThetaForFacet E L bank A' f = -3 ∧
    findBestThetaForFacet E L bank A' f =
      -(findBestThetaForFacet E L bank A f) := by
  have h1 := findBestThetaForFacet_allPos E L bank A f hne hE hEpos hL
    ha hansA hsome
  have h2 := findBestThetaForFacet_allNeg E L bank A' f hne hE hEpos hL
    ha hansA'
  exact ⟨h1, h2, by rw [h1, h2]⟩

lemma facet_a_pos (f : String) :
    ∀ q ∈ facetToQuestionMap f, 0 < (itemAt q).a :=
  fun q hq => itemAt_a_pos q (mem_facetToQuestionMap.mp hq).1

lemma ansOnePos_pos_pole :
    ∀ q ∈ facetToQuestionMap "Initiating", ∀ c, ansOnePos (q + 1) = some c →
      ((bankC q).optionOf c).pole = (configOfD (itemAt q).dichotomy).pole1 := by
  rw [initiating_map]
  intro q hq c hc
  rcases List.mem_cons.mp hq with rfl | hq2
  · have hcA : c = Choice.A := by
      have h0 : (some Choice.A : Option Choice) = some c := hc
      exact (Option.some_injective _ h0).symm
    rw [hcA]
    rfl
  rcases List.mem_cons.mp hq2 with rfl | hq3
  · simp [ansOnePos] at hc
  rcases List.mem_cons.mp hq3 with rfl | hq4
  · simp [ansOnePos] at hc
  · exact absurd hq4 (List.not_mem_nil q)

lemma ansOneNeg_neg_pole :
    ∀ q ∈ facetToQuestionMap "Initiating", ∀ c, ansOneNeg (q + 1) = some c →
      ((bankC q).optionOf c).pole ≠ (configOfD (itemAt q).dichotomy).pole1 := by
  rw [initiating_map]
  intro q hq c hc
  rcases List.mem_cons.mp hq with rfl | hq2
  · have hcB : c = Choice.B := by
      have h0 : (some Choice.B : Option Choice) = some c := hc
      exact (Option.some_injective _ h0).symm
    rw [hcB]
    decide
  rcases List.mem_cons.mp hq2 with rfl | hq3
  · simp [ansOneNeg] at hc
  rcases List.mem_cons.mp hq3 with rfl | hq4
  · simp [ansOneNeg] at hc
  · exact absurd hq4 (List.not_mem_nil q)

/-- C7 amended witness at the facet "Initiating". -/
theorem C7_amended_flip_witness :
    facetToQuestionMap "Initiating" ≠ [] ∧
    (∃ q ∈ facetToQuestionMap "Initiating", ansOnePos (q + 1) ≠ none) ∧
    (findBestThetaForFacet linExp linLog bankC ansOnePos "Initiating" = 3 ∧
     findBestThetaForFacet linExp linLog bankC ansOneNeg "Initiating" = -3 ∧
     findBestThetaForFacet linExp linLog bankC ansOneNeg "Initiating" =
       -(findBestThetaForFacet linExp linLog bankC ansOnePos "Initiating")) :=
  ⟨by decide, ⟨9, by decide, by decide⟩,
   C7_amended_flip linExp linLog bankC ansOnePos ansOneNeg "Initiating"
     linExp_mono linExp_pos linLog_strictMonoOn (by decide)
     (facet_a_pos "Initiating") ansOnePos_pos_pole
     ⟨9, by decide, by decide⟩ ansOneNeg_neg_pole⟩

end FormM
